import Mathlib

/-! # Talon: outcome classification and the attempt loop

A shallow embedding of `Talon.go`.

* Go strings are Lean strings; `strings.Contains` is substring containment. (Go compares
  bytes, Lean characters; on well-formed UTF-8 text the two notions of containment agree.)
* What the outside world supplies is explicit: the lines the operator types
  (`stdin`), the errors returned by the protocol clients (`Reply`), the values
  of `rand.Int()`, the contents of the input files and `strings.ToUpper`.
* What the program does to the outside world is a list of `Event`s.
* `log.Fatal` and a Go panic end the process; they are results of their own.
* `github.com/fatih/color` wraps a text between an escape sequence that switches
  the colour on and one that resets it (both empty when colour is disabled);
  the sequences are the fields of `Colour`.
* Debug tracing is off (the default of `-debug`), so `printDebug` prints nothing.
  The pacing sleep is an event without a duration.
* Whether `writefile` can open and write the output file is supplied by the outside world;
  a failure is the panic of `check`.
-/

namespace Talon

/-! ## Strings -/

/-- The search of `strings.Contains` on character lists: `p` occurs in the list. -/
def containsAt : List Char → List Char → Bool
  | [], p => p.isEmpty
  | a :: s, p => p.isPrefixOf (a :: s) || containsAt s p

/-- Go `strings.Contains(s, substr)`. -/
def Contains (s substr : String) : Bool :=
  containsAt s.data substr.data

/-- Go `fmt.Sprintf("%s %s %s\\%s:%s = %s", a, b, c, d, e, f)`. -/
def Sprintf (a b c d e f : String) : String :=
  a ++ " " ++ b ++ " " ++ c ++ "\\" ++ d ++ ":" ++ e ++ " = " ++ f

/-- The escape sequences `fatih/color` writes around a coloured text. -/
structure Colour where
  red : String
  green : String
  reset : String
  deriving DecidableEq, Repr

/-- Colour output on a terminal (ANSI). -/
def Colour.ansi : Colour := ⟨"\x1b[31m", "\x1b[32m", "\x1b[0m"⟩

/-- Colour disabled: the text is left as it is. -/
def Colour.plain : Colour := ⟨"", "", ""⟩

/-- Go `color.RedString(s)`. -/
def Colour.RedString (c : Colour) (s : String) : String :=
  c.red ++ s ++ c.reset

/-- Go `color.GreenString(s)`. -/
def Colour.GreenString (c : Colour) (s : String) : String :=
  c.green ++ s ++ c.reset

/-! ## Data model -/

/-- Go `type User struct`. -/
structure User where
  Name : String
  Password : String
  Domain : String
  deriving DecidableEq, Repr

/-- Go `type LDAP struct` (the embedded `User` gives `Name`, `Password`, `Domain`). -/
structure LDAP extends User where
  Host : String
  deriving DecidableEq, Repr

/-- Go `type KERB struct`. -/
structure KERB extends User where
  Host : String
  Enum : Bool
  deriving DecidableEq, Repr

/-- Go `type Authenticator interface`: the two implementations. -/
inductive Authenticator where
  | kerb (k : KERB)
  | ldap (l : LDAP)
  deriving DecidableEq, Repr

/-- Go `type FlagOptions struct` (without the unused `OutPut` and the `sleep` duration). -/
structure FlagOptions where
  host : String
  hostfile : String
  user : String
  userfile : String
  domain : String
  pass : String
  outFile : String
  enum : Bool
  kerb : Bool
  ldap : Bool
  deriving DecidableEq, Repr

/-! ## Effects -/

/-- What the program does to the outside world, in order. -/
inductive Event where
  /-- Text passed to `fmt.Println`. -/
  | println (s : String)
  /-- Text passed to `fmt.Print`. -/
  | print (s : String)
  /-- Line returned by `reader.ReadString('\n')`. -/
  | readLine (s : String)
  /-- Call of `time.Sleep`. -/
  | sleep
  /-- Call of `setup(service, host, domain, username, password, enum)`. -/
  | setup (service host domain username password : String) (enum : Bool)
  /-- Return of `auth.Login()` with `(result, forfile, err)`. -/
  | loginReturned (result forfile : String) (err : Option String)
  /-- Text `result` is appended to `outFile` by `cf.Write` in `writefile`. -/
  | writefile (outFile result : String)
  /-- Call of `log.Fatal(msg)`: the process exits. -/
  | logFatal (msg : String)
  /-- Go panic: the process dies. -/
  | panic (msg : String)
  deriving DecidableEq, Repr

/-- How a call of `Login` ends. -/
inductive Ret where
  /-- Returned `(result, forfile, err)`. -/
  | ok (result forfile : String) (err : Option String)
  /-- Ended the process through `log.Fatal`. -/
  | fatal
  /-- Ended the process through a panic. -/
  | panic
  deriving DecidableEq, Repr

/-- A call of `Login`: what it printed and read, the operator lines left, how it ended. -/
structure LoginOut where
  events : List Event
  stdin : List String
  ret : Ret
  deriving DecidableEq, Repr

/-- Go `reader.ReadString('\n')` with the error dropped: the next operator line, or the
empty text at end of input. -/
def ReadString : List String → String × List String
  | [] => ("", [])
  | l :: ls => (l, ls)

/-- What the protocol clients answer to one attempt: the errors (if any) of
`ldap.DialTLS`, `conn.Bind`, `config.NewConfigFromString` and `cl.Login`. -/
structure Reply where
  dial : Option String
  bind : Option String
  config : Option String
  login : Option String
  deriving DecidableEq, Repr

/-! ## LDAP.Login -/

/-- Go `func (l LDAP) Login() (string, string, error)`. -/
def LDAP.Login (c : Colour) (l : LDAP) (dial bind : Option String) (stdin : List String) :
    LoginOut :=
  match dial with
  | some err =>
    let text := (ReadString stdin).1
    let rest := (ReadString stdin).2
    let evs := [Event.println err, Event.print "[*] Do you want to continue.[y/n]: ",
      Event.readLine text]
    if Contains text "y" then
      ⟨evs, rest, Ret.ok "" "" none⟩
    else
      ⟨evs ++ [Event.logFatal "[*] Shutting down"], rest, Ret.fatal⟩
  | none =>
    match bind with
    | some err =>
      if Contains err "comment: AcceptSecurityContext error, data 775, v3839" then
        let result := Sprintf (c.RedString "[-] ") l.Host l.Domain l.Name l.Password
          (c.RedString "User's Account Locked")
        let forfile := Sprintf "[-] " l.Host l.Domain l.Name l.Password
          "User's Account Locked"
        ⟨[], stdin, Ret.ok result forfile (some err)⟩
      else
        let result := Sprintf (c.RedString "[-] ") l.Host l.Domain l.Name l.Password
          (c.RedString "Failed")
        let forfile := Sprintf "[-] " l.Host l.Domain l.Name l.Password "Failed"
        ⟨[], stdin, Ret.ok result forfile (some err)⟩
    | none =>
      let result := Sprintf (c.GreenString "[+] ") l.Host l.Domain l.Name l.Password
        (c.GreenString "Success")
      let forfile := Sprintf "[+] " l.Host l.Domain l.Name l.Password "Success"
      ⟨[], stdin, Ret.ok result forfile none⟩

/-! ## KERB.Login -/

/-- The fragment of a Kerberos error saying the KDC could not be reached. -/
def kdcUnreachable : String := "AS_REQ to KDC: failed to communicate with KDC"

/-- The first AS-REP decrypt fragment of the enumeration table. -/
def decryptVerification : String :=
  "AS Exchange Error: AS_REP is not valid or client password/keytab incorrect < Decrypting_Error: error decrypting EncPart of AS_REP < Decrypting_Error: error decrypting AS_REP encrypted part: error decrypting: integrity verification failed"

/-- The KDC policy fragment of the enumeration table. -/
def kdcPolicy : String :=
  "AS Exchange Error: kerberos error response from KDC: KRB Error: (12) KDC_ERR_POLICY KDC policy rejects request"

/-- The unsupported encryption type fragment of the enumeration table. -/
def etypeNosupp : String :=
  "AS Exchange Error: kerberos error response from KDC: KRB Error: (14) KDC_ERR_ETYPE_NOSUPP KDC has no support for encryption type"

/-- The second AS-REP decrypt fragment of the enumeration table. -/
def decryptChecksum : String :=
  "KRBMessage_Handling_Error: AS Exchange Error: AS_REP is not valid or client password/keytab incorrect < Decrypting_Error: error decrypting EncPart of AS_REP < Decrypting_Error: error decrypting AS_REP encrypted part: error decrypting: integrity checksum incorrect"

/-- The clock skew warning and `log.Fatal` of `KERB.Login`. -/
def skewFatal (c : Colour) (stdin : List String) : LoginOut :=
  ⟨[Event.println (c.RedString "[-] " ++
      "The difference between the time on the Kerberos and you is too great to continue"),
    Event.logFatal "[*] Shutting down"], stdin, Ret.fatal⟩

/-- The block `if k.Enum == true` of `KERB.Login` on the error text `err`: `some` when one
of its branches ends the call, `none` when control falls through to the code after it. -/
def KERB.enumTable (c : Colour) (k : KERB) (err : String) (stdin : List String) :
    Option LoginOut :=
  if Contains err "(37) KRB_AP_ERR_SKEW Clock skew" then
    some (skewFatal c stdin)
  else if Contains err "KDC_ERR_CLIENT_REVOKED" then
    let result := Sprintf (c.RedString "[-] ") k.Host k.Domain k.Name k.Password
      (c.RedString "User's Account Locked")
    let forfile := Sprintf "[-] " k.Host k.Domain k.Name k.Password "User's Account Locked"
    some ⟨[], stdin, Ret.ok result forfile (some err)⟩
  else if Contains err "KDC_ERR_C_PRINCIPAL_UNKNOWN" then
    let result := Sprintf (c.RedString "[-] ") k.Host k.Domain k.Name k.Password
      (c.RedString "User Does Not Exist")
    let forfile := Sprintf "[-] " k.Host k.Domain k.Name k.Password "User Does Not Exist"
    some ⟨[], stdin, Ret.ok result forfile (some err)⟩
  else if Contains err "KDC_ERR_PREAUTH_FAILED" then
    let result := Sprintf (c.GreenString "[+] ") k.Host k.Domain k.Name k.Password
      (c.GreenString "User Exist")
    let forfile := Sprintf "[+] " k.Host k.Domain k.Name k.Password "User Exist"
    some ⟨[], stdin, Ret.ok result forfile (some err)⟩
  else if Contains err decryptVerification then
    let result := Sprintf (c.GreenString "[+] ") k.Host k.Domain k.Name k.Password
      (c.GreenString "User Exist - But Does Not Require Preauth")
    let forfile := Sprintf "[+] " k.Host k.Domain k.Name k.Password
      "User Exist - But Does Not Require Preauth"
    some ⟨[], stdin, Ret.ok result forfile (some err)⟩
  else if Contains err kdcPolicy then
    let result := Sprintf (c.GreenString "[+] ") k.Host k.Domain k.Name k.Password
      (c.GreenString "User Exist - But Smartcard is Required")
    let forfile := Sprintf "[+] " k.Host k.Domain k.Name k.Password
      "User Exist - But Smartcard is Required"
    some ⟨[], stdin, Ret.ok result forfile (some err)⟩
  else if Contains err etypeNosupp then
    let result := Sprintf (c.GreenString "[+] ") k.Host k.Domain k.Name k.Password
      (c.GreenString "User Exist")
    let forfile := Sprintf "[+] " k.Host k.Domain k.Name k.Password "User Exist"
    some ⟨[], stdin, Ret.ok result forfile (some err)⟩
  else if Contains err decryptChecksum then
    let result := Sprintf (c.GreenString "[+] ") k.Host k.Domain k.Name k.Password
      (c.GreenString
        "User Exist - But Only Allows Kerberos DES Encrpytion and Does Not Require Preauth")
    let forfile := Sprintf "[+] " k.Host k.Domain k.Name k.Password
      "User Exist - But Only Allows Kerberos DES Encrpytion and Does Not Require Preauth"
    some ⟨[], stdin, Ret.ok result forfile (some err)⟩
  else
    none

/-- The last `if`/`else if`/`else` of `KERB.Login` on the error text `err`. -/
def KERB.normalTable (c : Colour) (k : KERB) (err : String) (stdin : List String) :
    LoginOut :=
  if Contains err "(37) KRB_AP_ERR_SKEW" then
    skewFatal c stdin
  else if Contains err "KDC_ERR_CLIENT_REVOKED" then
    let result := Sprintf (c.RedString "[-] ") k.Host k.Domain k.Name k.Password
      (c.RedString "User's Account Locked")
    let forfile := Sprintf "[-] " k.Host k.Domain k.Name k.Password "User's Account Locked"
    ⟨[], stdin, Ret.ok result forfile (some err)⟩
  else
    let result := Sprintf (c.RedString "[-] ") k.Host k.Domain k.Name k.Password
      (c.RedString "Failed")
    let forfile := Sprintf "[-] " k.Host k.Domain k.Name k.Password "Failed"
    ⟨[], stdin, Ret.ok result forfile (some err)⟩

/-- Go `func (k KERB) Login() (string, string, error)`. -/
def KERB.Login (c : Colour) (k : KERB) (config login : Option String) (stdin : List String) :
    LoginOut :=
  match config with
  | some cfgErr => ⟨[Event.panic cfgErr], stdin, Ret.panic⟩
  | none =>
    match login with
    | some err =>
      if Contains err kdcUnreachable then
        let text := (ReadString stdin).1
        let rest := (ReadString stdin).2
        let evs := [Event.println
            ("[Root cause: Networking_Error] Networking_Error: AS Exchange Error: failed sending AS_REQ to KDC: failed to communicate with KDC "
              ++ k.Host),
          Event.print "[*] Do you want to continue.[y/n]: ", Event.readLine text]
        if Contains text "y" then
          ⟨evs, rest, Ret.ok "" "" none⟩
        else
          ⟨evs ++ [Event.logFatal "[*] Shutting down"], rest, Ret.fatal⟩
      else if k.Enum = true then
        match KERB.enumTable c k err stdin with
        | some out => out
        | none => KERB.normalTable c k err stdin
      else
        KERB.normalTable c k err stdin
    | none =>
      let result := Sprintf (c.GreenString "[+] ") k.Host k.Domain k.Name k.Password
        (c.GreenString "Success")
      let forfile := Sprintf "[+] " k.Host k.Domain k.Name k.Password "Success"
      ⟨[], stdin, Ret.ok result forfile none⟩

/-- The method `Login` of the interface: dispatch on the implementation. -/
def Authenticator.Login (c : Colour) (a : Authenticator) (r : Reply) (stdin : List String) :
    LoginOut :=
  match a with
  | Authenticator.kerb k => KERB.Login c k r.config r.login stdin
  | Authenticator.ldap l => LDAP.Login c l r.dial r.bind stdin

/-- Go `func setup(service, host, domain, username, password string, enum bool) Authenticator`;
`none` is the `nil` returned for an unknown service. -/
def setup (service host domain username password : String) (enum : Bool) :
    Option Authenticator :=
  if service = "KERB" then
    some (Authenticator.kerb
      { Host := host, Name := username, Password := password, Domain := domain, Enum := enum })
  else if service = "LDAP" then
    some (Authenticator.ldap
      { Host := host, Name := username, Password := password, Domain := domain })
  else
    none

/-! ## main -/

/-- How the process ends. -/
inductive Exit where
  /-- Function `main` returned. -/
  | returned
  /-- A `log.Fatal` ended the process. -/
  | fatal
  /-- A panic ended the process. -/
  | panic
  deriving DecidableEq, Repr

/-- How a call of `writefile` goes. -/
inductive WriteOutcome where
  /-- The file is opened and the whole text is appended. -/
  | done
  /-- Go `os.OpenFile` fails with the message `msg`: nothing is appended. -/
  | openFailed (msg : String)
  /-- Go `cf.Write` fails with the message `msg` after the first `n` characters of the text
  have been appended. -/
  | writeFailed (n : Nat) (msg : String)
  deriving DecidableEq, Repr

/-- What the outside world supplies to a run. -/
structure World where
  /-- Go `ioutil.ReadFile`: the content of a file, `none` when it cannot be read. -/
  ReadFile : String → Option String
  /-- Go `strings.ToUpper`. -/
  ToUpper : String → String
  /-- Value of `rand.Int()` in the loop iteration of the given number. -/
  rand : Nat → Nat
  /-- Answers of the protocol clients in the loop iteration of the given number. -/
  reply : Nat → Reply
  /-- How the call of `writefile` goes in the loop iteration of the given number. -/
  write : Nat → WriteOutcome
  /-- Lines the operator types. -/
  stdin : List String

/-- Go `strings.Split(s, "\n")` on the characters of `s`. -/
def splitLines : List Char → List (List Char)
  | [] => [[]]
  | ch :: cs =>
    if ch = '\n' then [] :: splitLines cs
    else
      match splitLines cs with
      | [] => [[ch]]
      | l :: ls => (ch :: l) :: ls

/-- Go `func readfile(inputFile string) []string`; `none` is the `log.Fatal(err)`. -/
def readfile (w : World) (inputFile : String) : Option (List String) :=
  match w.ReadFile inputFile with
  | none => none
  | some output => some ((splitLines output.data).map String.mk)

/-- The prompt of the lockout circuit breaker. -/
def lockoutPrompt : String :=
  "[*] Account lock out detected - Do you want to continue.[y/n]: "

/-- How one pass through the body of the `for` loop of `main` ends. -/
inductive Next where
  /-- The loop goes on with the next username, rotation index `x`, operator lines `stdin`. -/
  | next (x : Nat) (stdin : List String)
  /-- The process ends. -/
  | stop (e : Exit)
  deriving DecidableEq, Repr

/-- The choice of the host in the loop body of `main`: `n := 0`, the random index when a
host file is given, and the read of `hosts[n]`. An error is the message of the panic. -/
def pickHost (opt : FlagOptions) (w : World) (hosts : List String) (i : Nat) :
    Except String String :=
  if opt.hostfile ≠ "" ∧ (hosts.length : Int) - 1 = 0 then
    Except.error "integer divide by zero"
  else
    let n : Int := if opt.hostfile ≠ "" then Int.tmod (w.rand i) ((hosts.length : Int) - 1) else 0
    match hosts[n.toNat]? with
    | none => Except.error "index out of range"
    | some host => Except.ok host

/-- Go `func writefile(outFile, result string)` with `check`: the events of the call, and
whether it returned (`true`) or panicked (`false`). -/
def writefile (outFile result : String) : WriteOutcome → List Event × Bool
  | WriteOutcome.done => ([Event.writefile outFile result], true)
  | WriteOutcome.openFailed msg => ([Event.panic msg], false)
  | WriteOutcome.writeFailed n msg =>
    ([Event.writefile outFile (String.mk (result.data.take n)), Event.panic msg], false)

/-- The loop body of `main` after `auth.Login()` has returned `result` and `forfile`: the
display, the lockout prompt, the output file (where the call of `writefile` goes as `wo`
says) and the rotation. -/
def afterLogin (opt : FlagOptions) (wo : WriteOutcome) (lenServices : Int) (x : Nat)
    (result forfile : String) (stdin : List String) : List Event × Next :=
  if Contains result "User's Account Locked" ∧ opt.enum ≠ true then
    let text := (ReadString stdin).1
    let rest := (ReadString stdin).2
    let asked := [Event.println result, Event.print lockoutPrompt, Event.readLine text]
    if Contains text "y" then
      (asked, Next.next x rest)
    else
      (asked ++ [Event.logFatal "Shutting down"], Next.stop Exit.fatal)
  else
    let x1 := if lenServices = (x : Int) then 0 else x + 1
    if opt.outFile ≠ "" then
      let wr := writefile opt.outFile (forfile ++ "\n") wo
      if wr.2 = true then
        (Event.println result :: wr.1, Next.next x1 stdin)
      else
        (Event.println result :: wr.1, Next.stop Exit.panic)
    else
      ([Event.println result], Next.next x1 stdin)

/-- The body of `for _, username := range usernames` in `main`, in iteration number `i`
with rotation index `x`. -/
def iteration (c : Colour) (opt : FlagOptions) (w : World) (hosts services : List String)
    (domain password : String) (lenServices : Int) (username : String) (i x : Nat)
    (stdin : List String) : List Event × Next :=
  match pickHost opt w hosts i with
  | Except.error msg => ([Event.panic msg], Next.stop Exit.panic)
  | Except.ok host =>
    if host = "" then
      ([], Next.stop Exit.returned)
    else
      match services[x]? with
      | none => ([Event.sleep, Event.panic "index out of range"], Next.stop Exit.panic)
      | some service =>
        let pre := [Event.sleep, Event.setup service host domain username password opt.enum]
        match setup service host domain username password opt.enum with
        | none => (pre ++ [Event.panic "nil pointer dereference"], Next.stop Exit.panic)
        | some auth =>
          let out := auth.Login c (w.reply i) stdin
          match out.ret with
          | Ret.fatal => (pre ++ out.events, Next.stop Exit.fatal)
          | Ret.panic => (pre ++ out.events, Next.stop Exit.panic)
          | Ret.ok result forfile err =>
            let r := afterLogin opt (w.write i) lenServices x result forfile out.stdin
            (pre ++ out.events ++ Event.loginReturned result forfile err :: r.1, r.2)

/-- The `for` loop of `main` over the usernames still to try. -/
def loop (c : Colour) (opt : FlagOptions) (w : World) (hosts services : List String)
    (domain password : String) (lenServices : Int) :
    List String → Nat → Nat → List String → List Event × Exit
  | [], _, _, _ => ([], Exit.returned)
  | username :: usernames, i, x, stdin =>
    match iteration c opt w hosts services domain password lenServices username i x stdin with
    | (evs, Next.stop e) => (evs, e)
    | (evs, Next.next x1 stdin1) =>
      let r := loop c opt w hosts services domain password lenServices usernames (i + 1) x1 stdin1
      (evs ++ r.1, r.2)

/-- The end of `main`: `x := 0`, `lenServices := len(services) - 1` and the `for` loop. -/
def schedule (c : Colour) (opt : FlagOptions) (w : World) (hosts services : List String)
    (domain password : String) (usernames : List String) : List Event × Exit :=
  loop c opt w hosts services domain password ((services.length : Int) - 1) usernames 0 0 w.stdin

/-- The usernames `main` collects: the non-empty lines of the user file, then the `-U` user. -/
def collectUsernames (opt : FlagOptions) (fileUsers : List String) : List String :=
  (if opt.userfile ≠ "" then fileUsers.filter (fun user => user ≠ "") else []) ++
    (if opt.user ≠ "" then [opt.user] else [])

/-- Go `func main()` after the banner. -/
def main (c : Colour) (opt : FlagOptions) (w : World) : List Event × Exit :=
  let services := ["KERB", "LDAP"]
  let password := ""
  let services := if opt.enum then ["KERB"] else services
  let password := if opt.enum then " " else password
  let services := if opt.kerb then ["KERB"] else services
  let services := if opt.ldap then ["LDAP"] else services
  if opt.kerb ∧ opt.ldap then
    ([Event.logFatal "Error: Please choose one or the other"], Exit.fatal)
  else if opt.enum ∧ opt.ldap then
    ([Event.logFatal "Error: Can't use LDAP only option with Enumeration option"], Exit.fatal)
  else if opt.enum ∧ opt.kerb then
    ([Event.logFatal "Error: Can't use Kerberos only option with Enumeration option"],
      Exit.fatal)
  else if opt.host = "" ∧ opt.hostfile = "" then
    ([Event.logFatal "Error: Please provide a host or list of hosts"], Exit.fatal)
  else
    let hosts := if opt.host ≠ "" then [opt.host] else []
    match (if opt.hostfile ≠ "" then readfile w opt.hostfile else some []) with
    | none => ([Event.logFatal "ReadFile"], Exit.fatal)
    | some fileHosts =>
      let hosts := hosts ++ fileHosts
      if opt.user = "" ∧ opt.userfile = "" then
        ([Event.logFatal "Error: Please provide an username or list of usernames"], Exit.fatal)
      else if opt.pass = "" ∧ opt.enum = false then
        ([Event.logFatal "Error: Please provide a password or select the enumeration option"],
          Exit.fatal)
      else
        let password := if opt.pass ≠ "" then opt.pass else password
        match (if opt.userfile ≠ "" then readfile w opt.userfile else some []) with
        | none => ([Event.logFatal "ReadFile"], Exit.fatal)
        | some fileUsers =>
          let usernames := collectUsernames opt fileUsers
          let domain := w.ToUpper opt.domain
          schedule c opt w hosts services domain password usernames

/-! ## Vocabulary of the specification -/

/-- The outcomes of the specification that `Login` reports as a result line. -/
inductive Outcome where
  | Success
  | Failed
  | AccountLocked
  | UserExists
  | UserNotExist
  | UserExistsNoPreauthRequired
  | UserExistsSmartcardRequired
  | UserExistsDESNoPreauthRequired
  deriving DecidableEq, Repr

/-- The label of an outcome in a result line. -/
def Outcome.label : Outcome → String
  | Outcome.Success => "Success"
  | Outcome.Failed => "Failed"
  | Outcome.AccountLocked => "User's Account Locked"
  | Outcome.UserExists => "User Exist"
  | Outcome.UserNotExist => "User Does Not Exist"
  | Outcome.UserExistsNoPreauthRequired => "User Exist - But Does Not Require Preauth"
  | Outcome.UserExistsSmartcardRequired => "User Exist - But Smartcard is Required"
  | Outcome.UserExistsDESNoPreauthRequired =>
    "User Exist - But Only Allows Kerberos DES Encrpytion and Does Not Require Preauth"

/-- Outcomes reported with the marker `[+]` (the others are reported with `[-]`). -/
def Outcome.good : Outcome → Bool
  | Outcome.Success => true
  | Outcome.Failed => false
  | Outcome.AccountLocked => false
  | Outcome.UserExists => true
  | Outcome.UserNotExist => false
  | Outcome.UserExistsNoPreauthRequired => true
  | Outcome.UserExistsSmartcardRequired => true
  | Outcome.UserExistsDESNoPreauthRequired => true

/-- The marker of an outcome. -/
def Outcome.marker (o : Outcome) : String :=
  if o.good then "[+] " else "[-] "

/-- The colour decoration of an outcome: green for `[+]`, red for `[-]`. -/
def Outcome.paint (o : Outcome) (c : Colour) (s : String) : String :=
  if o.good then c.green ++ s ++ c.reset else c.red ++ s ++ c.reset

/-- The plain result line `marker host domain\username:password = label`. -/
def Outcome.plain (o : Outcome) (host : String) (u : User) : String :=
  o.marker ++ " " ++ host ++ " " ++ u.Domain ++ "\\" ++ u.Name ++ ":" ++ u.Password ++ " = " ++
    o.label

/-- The displayed result line: the plain one with marker and label decorated. -/
def Outcome.display (o : Outcome) (c : Colour) (host : String) (u : User) : String :=
  o.paint c o.marker ++ " " ++ host ++ " " ++ u.Domain ++ "\\" ++ u.Name ++ ":" ++ u.Password ++
    " = " ++ o.paint c o.label

/-- A `Login` that reports outcome `o` for error `err`, without talking to the operator. -/
def reports (o : Outcome) (c : Colour) (host : String) (u : User) (err : Option String)
    (stdin : List String) : LoginOut :=
  ⟨[], stdin, Ret.ok (o.display c host u) (o.plain host u) err⟩

/-- The fragments special to the enumeration block of `KERB.Login`, in the order in which
they are tried, each with the outcome attached to it. -/
def enumSpecific : List (String × Outcome) :=
  [("KDC_ERR_C_PRINCIPAL_UNKNOWN", Outcome.UserNotExist),
   ("KDC_ERR_PREAUTH_FAILED", Outcome.UserExists),
   (decryptVerification, Outcome.UserExistsNoPreauthRequired),
   (kdcPolicy, Outcome.UserExistsSmartcardRequired),
   (etypeNosupp, Outcome.UserExists),
   (decryptChecksum, Outcome.UserExistsDESNoPreauthRequired)]

/-- The outcome of the first fragment of a table contained in the error text. -/
def firstMatch (err : String) : List (String × Outcome) → Option Outcome
  | [] => none
  | (frag, o) :: table => if Contains err frag then some o else firstMatch err table

/-! ## Reading a trace -/

/-- The attempts of a trace, in order: the service and the username of every call of
`setup`. -/
def attempts : List Event → List (String × String)
  | [] => []
  | Event.setup service _ _ username _ _ :: evs => (service, username) :: attempts evs
  | _ :: evs => attempts evs

/-- The texts appended to the output file, in order. -/
def appended : List Event → List String
  | [] => []
  | Event.writefile _ result :: evs => result :: appended evs
  | _ :: evs => appended evs

/-- The number of times the lockout prompt is raised. -/
def lockoutPrompts (evs : List Event) : Nat :=
  evs.count (Event.print lockoutPrompt)

/-- The lines due to the output file according to a trace: for every return of `Login` that
does not raise the lockout prompt, the file string and a newline. -/
def dueLines (enum : Bool) : List Event → List String
  | [] => []
  | Event.loginReturned result forfile _ :: evs =>
    if Contains result "User's Account Locked" ∧ enum ≠ true then dueLines enum evs
    else (forfile ++ "\n") :: dueLines enum evs
  | _ :: evs => dueLines enum evs

/-- Events of a call of `Login`: console output other than the lockout prompt, operator
input, and the end of the process. -/
def Event.console : Event → Bool
  | Event.println _ => true
  | Event.print s => s ≠ lockoutPrompt
  | Event.readLine _ => true
  | Event.logFatal _ => true
  | Event.panic _ => true
  | _ => false

/-! ## Runs used as examples -/

/-- A world with one domain controller, the user file `alice`, `bob`: the first attempt is
answered with a revoked account by Kerberos, every later attempt succeeds, and the
operator answers `y` once. -/
def lockedThenFine : World where
  ReadFile := fun _ => some "alice\nbob\n"
  ToUpper := fun _ => "CORP"
  rand := fun _ => 0
  reply := fun i =>
    if i = 0 then
      ⟨none, none, none,
        some "KRB Error: (18) KDC_ERR_CLIENT_REVOKED Clients credentials have been revoked"⟩
    else ⟨none, none, none, none⟩
  write := fun _ => WriteOutcome.done
  stdin := ["y\n"]

/-- A world with one domain controller, the user file `alice`, `bob`, where every attempt
succeeds. -/
def allFine : World where
  ReadFile := fun _ => some "alice\nbob\n"
  ToUpper := fun _ => "CORP"
  rand := fun _ => 0
  reply := fun _ => ⟨none, none, none, none⟩
  write := fun _ => WriteOutcome.done
  stdin := []

/-- Flags `-H dc01 -Userfile users.txt -D corp -P pw -O out.txt`: both services. -/
def bothServices : FlagOptions :=
  { host := "dc01", hostfile := "", user := "", userfile := "users.txt", domain := "corp",
    pass := "pw", outFile := "out.txt", enum := false, kerb := false, ldap := false }

/-- The user `alice` of domain `CORP` with password `pw`. -/
def alice : User := ⟨"alice", "pw", "CORP"⟩

/-! ## Further readings of main -/

/-- The index `n` of the loop body of `main`: `n := 0`, replaced by
`rand.Int() % (len(hosts) - 1)` when a host file is given. An error is the message of the
panic. -/
def hostIndex (opt : FlagOptions) (w : World) (hosts : List String) (i : Nat) :
    Except String Int :=
  if opt.hostfile ≠ "" then
    if (hosts.length : Int) - 1 = 0 then Except.error "integer divide by zero"
    else Except.ok (Int.tmod (w.rand i) ((hosts.length : Int) - 1))
  else Except.ok 0

/-- The service list `main` selects from the flags: `services = []string{"KERB", "LDAP"}`
and the three `if` statements on `opt.enum`, `opt.kerb`, `opt.ldap`. -/
def selectServices (opt : FlagOptions) : List String :=
  let services := ["KERB", "LDAP"]
  let services := if opt.enum then ["KERB"] else services
  let services := if opt.kerb then ["KERB"] else services
  let services := if opt.ldap then ["LDAP"] else services
  services

/-- The values of the rotation index `x` at the start of the passes of the `for` loop of
`main`, in order. -/
def rotationIndices (c : Colour) (opt : FlagOptions) (w : World) (hosts services : List String)
    (domain password : String) (lenServices : Int) :
    List String → Nat → Nat → List String → List Nat
  | [], _, _, _ => []
  | username :: usernames, i, x, stdin =>
    match iteration c opt w hosts services domain password lenServices username i x stdin with
    | (_, Next.stop _) => [x]
    | (_, Next.next x1 stdin1) =>
      x :: rotationIndices c opt w hosts services domain password lenServices usernames (i + 1)
        x1 stdin1

/-- The fatal misconfigurations in the words of the specification: both protocol
restrictions, enumeration with a protocol restriction, no host source, no username source,
no password without enumeration. -/
def Misconfigured (opt : FlagOptions) : Prop :=
  (opt.kerb = true ∧ opt.ldap = true) ∨
    (opt.enum = true ∧ (opt.kerb = true ∨ opt.ldap = true)) ∨
    (opt.host = "" ∧ opt.hostfile = "") ∨
    (opt.user = "" ∧ opt.userfile = "") ∨
    (opt.pass = "" ∧ opt.enum = false)

/-- The fragments `KERB.Login` looks for in an error text, in the order of the source. -/
def kerbFragments : List String :=
  [kdcUnreachable, "(37) KRB_AP_ERR_SKEW Clock skew", "KDC_ERR_CLIENT_REVOKED",
    "KDC_ERR_C_PRINCIPAL_UNKNOWN", "KDC_ERR_PREAUTH_FAILED", decryptVerification, kdcPolicy,
    etypeNosupp, decryptChecksum, "(37) KRB_AP_ERR_SKEW"]

/-- A world with the user file `User's Account Locked`, `bob` in which every attempt
succeeds and the operator answers `n`. -/
def labelAsUsername : World where
  ReadFile := fun _ => some "User's Account Locked\nbob\n"
  ToUpper := fun _ => "CORP"
  rand := fun _ => 0
  reply := fun _ => ⟨none, none, none, none⟩
  write := fun _ => WriteOutcome.done
  stdin := ["n\n"]

/-- A world with the user file `alice`, `bob` in which every LDAP bind is answered with the
error of a locked account by a domain controller whose error text ends in `v2580`. -/
def lockedOtherBuild : World where
  ReadFile := fun _ => some "alice\nbob\n"
  ToUpper := fun _ => "CORP"
  rand := fun _ => 0
  reply := fun _ =>
    ⟨none,
      some
        "80090308: LdapErr: DSID-0C09044E, comment: AcceptSecurityContext error, data 775, v2580",
      none, none⟩
  write := fun _ => WriteOutcome.done
  stdin := []

/-- Flags `-H dc01 -Userfile users.txt -D corp -P pw -O out.txt -L`: LDAP only. -/
def ldapOnly : FlagOptions :=
  { host := "dc01", hostfile := "", user := "", userfile := "users.txt", domain := "corp",
    pass := "pw", outFile := "out.txt", enum := false, kerb := false, ldap := true }

/-- A world like `allFine` in which the output file cannot be opened. -/
def unwritable : World where
  ReadFile := fun _ => some "alice\nbob\n"
  ToUpper := fun _ => "CORP"
  rand := fun _ => 0
  reply := fun _ => ⟨none, none, none, none⟩
  write := fun _ => WriteOutcome.openFailed "open out.txt: permission denied"
  stdin := []

/-- A world whose files all hold the two lines `alice`, `bob`, in which every attempt
succeeds. -/
def readable : World where
  ReadFile := fun _ => some "alice\nbob"
  ToUpper := fun s => s
  rand := fun _ => 5
  reply := fun _ => ⟨none, none, none, none⟩
  write := fun _ => WriteOutcome.done
  stdin := []

/-! ## Lemmas on strings -/

theorem containsAt_iff (s p : List Char) : containsAt s p = true ↔ p <:+: s := by
  induction s with
  | nil =>
    cases p <;> simp [containsAt]
  | cons a s ih =>
    simp only [containsAt, Bool.or_eq_true, ih, List.isPrefixOf_iff_prefix]
    exact List.infix_cons_iff.symm

theorem Contains_iff (s p : String) : Contains s p = true ↔ p.data <:+: s.data :=
  containsAt_iff s.data p.data

theorem Contains_of_start (s p q : String) (hq : p.data <+: q.data)
    (h : Contains s q = true) : Contains s p = true := by
  rw [Contains_iff] at *
  exact List.IsInfix.trans hq.isInfix h

theorem skew_short_of_long (err : String)
    (h : Contains err "(37) KRB_AP_ERR_SKEW Clock skew" = true) :
    Contains err "(37) KRB_AP_ERR_SKEW" = true :=
  Contains_of_start err _ _ ⟨" Clock skew".data, by decide⟩ h

theorem Contains_locked_display (c : Colour) (host : String) (u : User) :
    Contains (Outcome.AccountLocked.display c host u) "User's Account Locked" = true := by
  rw [Contains_iff]
  refine ⟨(Outcome.AccountLocked.paint c Outcome.AccountLocked.marker ++ " " ++ host ++ " " ++
    u.Domain ++ "\\" ++ u.Name ++ ":" ++ u.Password ++ " = " ++ c.red).data, c.reset.data, ?_⟩
  simp [Outcome.display, Outcome.paint, Outcome.good, Outcome.label, String.data_append]

theorem display_plain (o : Outcome) (host : String) (u : User) :
    o.display Colour.plain host u = o.plain host u := by
  cases o <;> rfl

/-! ## Lemmas on the tables of KERB.Login -/

theorem enumTable_of_firstMatch (c : Colour) (k : KERB) (stdin : List String) (err : String)
    (hskew : Contains err "(37) KRB_AP_ERR_SKEW Clock skew" = false)
    (hrev : Contains err "KDC_ERR_CLIENT_REVOKED" = false) :
    KERB.enumTable c k err stdin =
      (firstMatch err enumSpecific).map
        (fun o => reports o c k.Host k.toUser (some err) stdin) := by
  simp only [KERB.enumTable, hskew, hrev, firstMatch, enumSpecific]
  by_cases h1 : Contains err "KDC_ERR_C_PRINCIPAL_UNKNOWN" = true
  · simp only [h1, if_true]; rfl
  by_cases h2 : Contains err "KDC_ERR_PREAUTH_FAILED" = true
  · simp only [h1, h2, if_true, if_false, Bool.false_eq_true]; rfl
  by_cases h3 : Contains err decryptVerification = true
  · simp only [h1, h2, h3, if_true, if_false, Bool.false_eq_true]; rfl
  by_cases h4 : Contains err kdcPolicy = true
  · simp only [h1, h2, h3, h4, if_true, if_false, Bool.false_eq_true]; rfl
  by_cases h5 : Contains err etypeNosupp = true
  · simp only [h1, h2, h3, h4, h5, if_true, if_false, Bool.false_eq_true]; rfl
  by_cases h6 : Contains err decryptChecksum = true
  · simp only [h1, h2, h3, h4, h5, h6, if_true, if_false, Bool.false_eq_true]; rfl
  · simp only [h1, h2, h3, h4, h5, h6, if_false, Bool.false_eq_true]; rfl

theorem enumTable_shape (k : KERB) (err : String) (stdin : List String) :
    (∀ c, KERB.enumTable c k err stdin = some (skewFatal c stdin)) ∨
      (∃ o, ∀ c, KERB.enumTable c k err stdin =
        some (reports o c k.Host k.toUser (some err) stdin)) ∨
      (∀ c, KERB.enumTable c k err stdin = none) := by
  by_cases h0 : Contains err "(37) KRB_AP_ERR_SKEW Clock skew" = true
  · exact Or.inl fun c => by simp only [KERB.enumTable, h0, if_true]
  by_cases h1 : Contains err "KDC_ERR_CLIENT_REVOKED" = true
  · exact Or.inr (Or.inl ⟨Outcome.AccountLocked, fun c => by
      simp only [KERB.enumTable, h0, h1, if_true, if_false, Bool.false_eq_true]; rfl⟩)
  by_cases h2 : Contains err "KDC_ERR_C_PRINCIPAL_UNKNOWN" = true
  · exact Or.inr (Or.inl ⟨Outcome.UserNotExist, fun c => by
      simp only [KERB.enumTable, h0, h1, h2, if_true, if_false, Bool.false_eq_true]; rfl⟩)
  by_cases h3 : Contains err "KDC_ERR_PREAUTH_FAILED" = true
  · exact Or.inr (Or.inl ⟨Outcome.UserExists, fun c => by
      simp only [KERB.enumTable, h0, h1, h2, h3, if_true, if_false, Bool.false_eq_true]; rfl⟩)
  by_cases h4 : Contains err decryptVerification = true
  · exact Or.inr (Or.inl ⟨Outcome.UserExistsNoPreauthRequired, fun c => by
      simp only [KERB.enumTable, h0, h1, h2, h3, h4, if_true, if_false, Bool.false_eq_true]; rfl⟩)
  by_cases h5 : Contains err kdcPolicy = true
  · exact Or.inr (Or.inl ⟨Outcome.UserExistsSmartcardRequired, fun c => by
      simp only [KERB.enumTable, h0, h1, h2, h3, h4, h5, if_true, if_false, Bool.false_eq_true]; rfl⟩)
  by_cases h6 : Contains err etypeNosupp = true
  · exact Or.inr (Or.inl ⟨Outcome.UserExists, fun c => by
      simp only [KERB.enumTable, h0, h1, h2, h3, h4, h5, h6, if_true, if_false, Bool.false_eq_true]; rfl⟩)
  by_cases h7 : Contains err decryptChecksum = true
  · exact Or.inr (Or.inl ⟨Outcome.UserExistsDESNoPreauthRequired, fun c => by
      simp only [KERB.enumTable, h0, h1, h2, h3, h4, h5, h6, h7, if_true, if_false, Bool.false_eq_true]; rfl⟩)
  · exact Or.inr (Or.inr fun c => by
      simp only [KERB.enumTable, h0, h1, h2, h3, h4, h5, h6, h7, if_false, Bool.false_eq_true])

theorem normalTable_shape (k : KERB) (err : String) (stdin : List String) :
    (∀ c, KERB.normalTable c k err stdin = skewFatal c stdin) ∨
      (∃ o, ∀ c, KERB.normalTable c k err stdin =
        reports o c k.Host k.toUser (some err) stdin) := by
  by_cases h0 : Contains err "(37) KRB_AP_ERR_SKEW" = true
  · exact Or.inl fun c => by simp only [KERB.normalTable, h0, if_true]
  by_cases h1 : Contains err "KDC_ERR_CLIENT_REVOKED" = true
  · exact Or.inr ⟨Outcome.AccountLocked, fun c => by
      simp only [KERB.normalTable, h0, h1, if_true, if_false, Bool.false_eq_true]; rfl⟩
  · exact Or.inr ⟨Outcome.Failed, fun c => by
      simp only [KERB.normalTable, h0, h1, if_false, Bool.false_eq_true]; rfl⟩

theorem kerb_login_shape (k : KERB) (config login : Option String) (stdin : List String) :
    (∀ c, (KERB.Login c k config login stdin).ret = Ret.ok "" "" none) ∨
      (∀ c, (KERB.Login c k config login stdin).ret = Ret.fatal) ∨
      (∀ c, (KERB.Login c k config login stdin).ret = Ret.panic) ∨
      (∃ o, ∀ c, KERB.Login c k config login stdin =
        reports o c k.Host k.toUser login stdin) := by
  cases config with
  | some cfgErr => exact Or.inr (Or.inr (Or.inl fun _ => rfl))
  | none =>
    cases login with
    | none => exact Or.inr (Or.inr (Or.inr ⟨Outcome.Success, fun _ => rfl⟩))
    | some err =>
      by_cases h1 : Contains err kdcUnreachable = true
      · by_cases hy : Contains (ReadString stdin).1 "y" = true
        · exact Or.inl fun c => by simp only [KERB.Login, h1, hy, if_true]
        · exact Or.inr (Or.inl fun c => by
            simp only [KERB.Login, h1, hy, if_true, if_false, Bool.false_eq_true])
      · have hnormal : (∀ c, (KERB.normalTable c k err stdin).ret = Ret.fatal) ∨
            (∃ o, ∀ c, KERB.normalTable c k err stdin =
              reports o c k.Host k.toUser (some err) stdin) := by
          rcases normalTable_shape k err stdin with h | h
          · exact Or.inl fun c => by rw [h c]; rfl
          · exact Or.inr h
        by_cases hk : k.Enum = true
        · rcases enumTable_shape k err stdin with h | ⟨o, h⟩ | h
          · exact Or.inr (Or.inl fun c => by
              simp only [KERB.Login, h1, hk, h c, if_true, if_false, Bool.false_eq_true]; rfl)
          · exact Or.inr (Or.inr (Or.inr ⟨o, fun c => by
              simp only [KERB.Login, h1, hk, h c, if_true, if_false, Bool.false_eq_true]⟩))
          · rcases hnormal with h' | ⟨o, h'⟩
            · exact Or.inr (Or.inl fun c => by
                simp only [KERB.Login, h1, hk, h c, h' c, if_true, if_false,
                  Bool.false_eq_true])
            · exact Or.inr (Or.inr (Or.inr ⟨o, fun c => by
                simp only [KERB.Login, h1, hk, h c, h' c, if_true, if_false,
                  Bool.false_eq_true]⟩))
        · rcases hnormal with h' | ⟨o, h'⟩
          · exact Or.inr (Or.inl fun c => by
              simp only [KERB.Login, h1, hk, h' c, if_false, Bool.false_eq_true])
          · exact Or.inr (Or.inr (Or.inr ⟨o, fun c => by
              simp only [KERB.Login, h1, hk, h' c, if_false, Bool.false_eq_true]⟩))

theorem ldap_login_shape (l : LDAP) (dial bind : Option String) (stdin : List String) :
    (∀ c, (LDAP.Login c l dial bind stdin).ret = Ret.ok "" "" none) ∨
      (∀ c, (LDAP.Login c l dial bind stdin).ret = Ret.fatal) ∨
      (∃ o, ∀ c, LDAP.Login c l dial bind stdin =
        reports o c l.Host l.toUser bind stdin) := by
  cases dial with
  | some err =>
    by_cases hy : Contains (ReadString stdin).1 "y" = true
    · exact Or.inl fun c => by simp only [LDAP.Login, hy, if_true]
    · exact Or.inr (Or.inl fun c => by
        simp only [LDAP.Login, hy, if_false, Bool.false_eq_true])
  | none =>
    cases bind with
    | none => exact Or.inr (Or.inr ⟨Outcome.Success, fun _ => rfl⟩)
    | some err =>
      by_cases h : Contains err "comment: AcceptSecurityContext error, data 775, v3839" = true
      · exact Or.inr (Or.inr ⟨Outcome.AccountLocked, fun c => by
          simp only [LDAP.Login, h, if_true]; rfl⟩)
      · exact Or.inr (Or.inr ⟨Outcome.Failed, fun c => by
          simp only [LDAP.Login, h, if_false, Bool.false_eq_true]; rfl⟩)

theorem reports_lines (o : Outcome) (c : Colour) (host : String) (u : User)
    (err : Option String) (stdin : List String) (result forfile : String) (err1 : Option String)
    (h : (reports o c host u err stdin).ret = Ret.ok result forfile err1) :
    ((o.marker = "[+] " ∧ ∀ s, o.paint c s = c.GreenString s) ∨
        (o.marker = "[-] " ∧ ∀ s, o.paint c s = c.RedString s)) ∧
      forfile = Sprintf o.marker host u.Domain u.Name u.Password o.label ∧
      result = Sprintf (o.paint c o.marker) host u.Domain u.Name u.Password (o.paint c o.label) ∧
      (reports o Colour.plain host u err stdin).ret = Ret.ok forfile forfile err1 := by
  simp only [reports, Ret.ok.injEq] at h
  obtain ⟨h1, h2, h3⟩ := h
  subst h1 h2 h3
  refine ⟨?_, rfl, rfl, ?_⟩
  · cases o
    all_goals first
      | exact Or.inl ⟨rfl, fun _ => rfl⟩
      | exact Or.inr ⟨rfl, fun _ => rfl⟩
  · simp only [reports, display_plain]

/-! ## Lemmas on traces -/

theorem appended_append (a b : List Event) : appended (a ++ b) = appended a ++ appended b := by
  induction a with
  | nil => rfl
  | cons e a ih => cases e <;> simp [appended, ih]

theorem dueLines_append (enum : Bool) (a b : List Event) :
    dueLines enum (a ++ b) = dueLines enum a ++ dueLines enum b := by
  induction a with
  | nil => rfl
  | cons e a ih =>
    cases e <;> simp [dueLines, ih]
    split_ifs <;> simp

theorem appended_console (evs : List Event) (h : evs.all Event.console = true) :
    appended evs = [] := by
  induction evs with
  | nil => rfl
  | cons e evs ih =>
    simp only [List.all_cons, Bool.and_eq_true] at h
    cases e <;> simp_all [appended, Event.console]

theorem dueLines_console (enum : Bool) (evs : List Event) (h : evs.all Event.console = true) :
    dueLines enum evs = [] := by
  induction evs with
  | nil => rfl
  | cons e evs ih =>
    simp only [List.all_cons, Bool.and_eq_true] at h
    cases e <;> simp_all [dueLines, Event.console]

theorem attempts_append (a b : List Event) : attempts (a ++ b) = attempts a ++ attempts b := by
  induction a with
  | nil => rfl
  | cons e a ih => cases e <;> simp [attempts, ih]

theorem lockoutPrompts_append (a b : List Event) :
    lockoutPrompts (a ++ b) = lockoutPrompts a + lockoutPrompts b := by
  simp [lockoutPrompts, List.count_append]

theorem attempts_console (evs : List Event) (h : evs.all Event.console = true) :
    attempts evs = [] := by
  induction evs with
  | nil => rfl
  | cons e evs ih =>
    simp only [List.all_cons, Bool.and_eq_true] at h
    cases e <;> simp_all [attempts, Event.console]

theorem lockoutPrompts_console (evs : List Event) (h : evs.all Event.console = true) :
    lockoutPrompts evs = 0 := by
  unfold lockoutPrompts
  rw [List.count_eq_zero]
  intro hm
  have := List.all_eq_true.mp h _ hm
  simp [Event.console] at this

/-! ## Lemmas on the loop body -/

theorem enumTable_console (c : Colour) (k : KERB) (err : String) (stdin : List String)
    (out : LoginOut) (h : KERB.enumTable c k err stdin = some out) :
    out.events.all Event.console = true := by
  unfold KERB.enumTable at h
  split_ifs at h <;> simp only [Option.some.injEq] at h <;> subst h <;> rfl

theorem normalTable_console (c : Colour) (k : KERB) (err : String) (stdin : List String) :
    (KERB.normalTable c k err stdin).events.all Event.console = true := by
  unfold KERB.normalTable
  split_ifs <;> rfl

theorem kerb_login_console (c : Colour) (k : KERB) (config login : Option String)
    (stdin : List String) : (KERB.Login c k config login stdin).events.all Event.console = true := by
  unfold KERB.Login
  cases config with
  | some cfgErr => rfl
  | none =>
    cases login with
    | none => rfl
    | some err =>
      simp only
      split_ifs
      · rfl
      · rfl
      · split
        · next out h => exact enumTable_console c k err stdin out h
        · exact normalTable_console c k err stdin
      · exact normalTable_console c k err stdin

theorem ldap_login_console (c : Colour) (l : LDAP) (dial bind : Option String)
    (stdin : List String) : (LDAP.Login c l dial bind stdin).events.all Event.console = true := by
  unfold LDAP.Login
  cases dial with
  | some err =>
    simp only
    split_ifs <;> rfl
  | none =>
    cases bind with
    | none => rfl
    | some err =>
      simp only
      split_ifs <;> rfl

theorem login_console (c : Colour) (a : Authenticator) (r : Reply) (stdin : List String) :
    (a.Login c r stdin).events.all Event.console = true := by
  cases a with
  | kerb k => exact kerb_login_console c k r.config r.login stdin
  | ldap l => exact ldap_login_console c l r.dial r.bind stdin


theorem afterLogin_unlocked (opt : FlagOptions) (wo : WriteOutcome) (lenServices : Int)
    (x : Nat) (result forfile : String) (stdin : List String)
    (h : ¬ (Contains result "User's Account Locked" = true ∧ opt.enum ≠ true)) :
    afterLogin opt wo lenServices x result forfile stdin =
      if opt.outFile ≠ "" then
        (Event.println result :: (writefile opt.outFile (forfile ++ "\n") wo).1,
          if (writefile opt.outFile (forfile ++ "\n") wo).2 = true then
            Next.next (if lenServices = (x : Int) then 0 else x + 1) stdin
          else Next.stop Exit.panic)
      else ([Event.println result], Next.next (if lenServices = (x : Int) then 0 else x + 1) stdin) := by
  simp only [afterLogin, if_neg h]
  split_ifs <;> rfl

theorem afterLogin_form (opt : FlagOptions) (wo : WriteOutcome) (lenServices : Int) (x : Nat)
    (result forfile : String) (stdin : List String) :
    attempts (afterLogin opt wo lenServices x result forfile stdin).1 = [] ∧
      ((lockoutPrompts (afterLogin opt wo lenServices x result forfile stdin).1 = 1 ∧
          ((afterLogin opt wo lenServices x result forfile stdin).2 =
              Next.next x (ReadString stdin).2 ∨
            (afterLogin opt wo lenServices x result forfile stdin).2 = Next.stop Exit.fatal)) ∨
        (lockoutPrompts (afterLogin opt wo lenServices x result forfile stdin).1 = 0 ∧
          ((afterLogin opt wo lenServices x result forfile stdin).2 =
              Next.next (if lenServices = (x : Int) then 0 else x + 1) stdin ∨
            (afterLogin opt wo lenServices x result forfile stdin).2 = Next.stop Exit.panic))) := by
  by_cases h : Contains result "User's Account Locked" = true ∧ opt.enum ≠ true
  · by_cases hy : Contains (ReadString stdin).1 "y" = true
    · have e : afterLogin opt wo lenServices x result forfile stdin =
          ([Event.println result, Event.print lockoutPrompt,
            Event.readLine (ReadString stdin).1], Next.next x (ReadString stdin).2) := by
        simp only [afterLogin, if_pos h, if_pos hy]
      rw [e]
      exact ⟨rfl, Or.inl ⟨by simp [lockoutPrompts], Or.inl rfl⟩⟩
    · have e : afterLogin opt wo lenServices x result forfile stdin =
          ([Event.println result, Event.print lockoutPrompt,
            Event.readLine (ReadString stdin).1, Event.logFatal "Shutting down"],
            Next.stop Exit.fatal) := by
        simp only [afterLogin, if_pos h, if_neg hy]
        rfl
      rw [e]
      exact ⟨rfl, Or.inl ⟨by simp [lockoutPrompts], Or.inr rfl⟩⟩
  · rw [afterLogin_unlocked opt wo lenServices x result forfile stdin h]
    by_cases ho : opt.outFile ≠ ""
    · rw [if_pos ho]
      cases wo with
      | done => exact ⟨rfl, Or.inr ⟨by simp [lockoutPrompts, writefile], Or.inl rfl⟩⟩
      | openFailed msg => exact ⟨rfl, Or.inr ⟨by simp [lockoutPrompts, writefile], Or.inr rfl⟩⟩
      | writeFailed n msg =>
        exact ⟨rfl, Or.inr ⟨by simp [lockoutPrompts, writefile], Or.inr rfl⟩⟩
    · rw [if_neg ho]
      exact ⟨rfl, Or.inr ⟨by simp [lockoutPrompts], Or.inl rfl⟩⟩

theorem iteration_form (c : Colour) (opt : FlagOptions) (w : World)
    (hosts services : List String) (domain password : String) (lenServices : Int)
    (username : String) (i x : Nat) (stdin : List String) (x1 : Nat)
    (hx1 : x1 = if lenServices = (x : Int) then 0 else x + 1) :
    (attempts (iteration c opt w hosts services domain password lenServices username i x stdin).1
          = [] ∧
        ∃ e, (iteration c opt w hosts services domain password lenServices username i x stdin).2
          = Next.stop e) ∨
      ∃ service host tail,
        services[x]? = some service ∧
        (iteration c opt w hosts services domain password lenServices username i x stdin).1 =
          Event.sleep :: Event.setup service host domain username password opt.enum :: tail ∧
        attempts tail = [] ∧
        ((∃ e, (iteration c opt w hosts services domain password lenServices username i x stdin).2
            = Next.stop e) ∨
          (lockoutPrompts tail = 1 ∧ ∃ stdin1,
            (iteration c opt w hosts services domain password lenServices username i x stdin).2
              = Next.next x stdin1) ∨
          (lockoutPrompts tail = 0 ∧ ∃ stdin1,
            (iteration c opt w hosts services domain password lenServices username i x stdin).2
              = Next.next x1 stdin1)) := by
  unfold iteration
  split
  · exact Or.inl ⟨rfl, _, rfl⟩
  · next host _ =>
    split_ifs with h2
    · exact Or.inl ⟨rfl, _, rfl⟩
    · split
      · exact Or.inl ⟨rfl, _, rfl⟩
      · next service hs =>
        right
        simp only []
        split
        · exact ⟨service, host, [Event.panic "nil pointer dereference"], hs, rfl, rfl,
            Or.inl ⟨_, rfl⟩⟩
        · next auth _ =>
          have hc := login_console c auth (w.reply i) stdin
          split
          · exact ⟨service, host, (Authenticator.Login c auth (w.reply i) stdin).events, hs, rfl,
              attempts_console _ hc, Or.inl ⟨_, rfl⟩⟩
          · exact ⟨service, host, (Authenticator.Login c auth (w.reply i) stdin).events, hs, rfl,
              attempts_console _ hc, Or.inl ⟨_, rfl⟩⟩
          · next result forfile err _ =>
            obtain ⟨ha, hb⟩ := afterLogin_form opt (w.write i) lenServices x result forfile
              (Authenticator.Login c auth (w.reply i) stdin).stdin
            rw [← hx1] at hb
            refine ⟨service, host, (Authenticator.Login c auth (w.reply i) stdin).events ++
              Event.loginReturned result forfile err ::
                (afterLogin opt (w.write i) lenServices x result forfile
                  (Authenticator.Login c auth (w.reply i) stdin).stdin).1, hs, ?_, ?_, ?_⟩
            · simp
            · rw [attempts_append, attempts_console _ hc]
              exact ha
            · have hp : ∀ n, lockoutPrompts
                  (afterLogin opt (w.write i) lenServices x result forfile
                    (Authenticator.Login c auth (w.reply i) stdin).stdin).1 = n →
                  lockoutPrompts ((Authenticator.Login c auth (w.reply i) stdin).events ++
                    Event.loginReturned result forfile err ::
                      (afterLogin opt (w.write i) lenServices x result forfile
                        (Authenticator.Login c auth (w.reply i) stdin).stdin).1) = n := by
                intro n hn
                rw [lockoutPrompts_append, lockoutPrompts_console _ hc, ← hn]
                simp [lockoutPrompts]
              rcases hb with ⟨h1, h | h⟩ | ⟨h0, h | h⟩
              · exact Or.inr (Or.inl ⟨hp 1 h1, _, h⟩)
              · exact Or.inl ⟨_, h⟩
              · exact Or.inr (Or.inr ⟨hp 0 h0, _, h⟩)
              · exact Or.inl ⟨_, h⟩


theorem split_after_quiet (tail rest pre post : List Event) (ev : Event)
    (hev : attempts [ev] ≠ []) (ht : attempts tail = [])
    (h : tail ++ rest = pre ++ ev :: post) :
    ∃ pre1, pre = tail ++ pre1 ∧ rest = pre1 ++ ev :: post := by
  induction tail generalizing pre with
  | nil => exact ⟨pre, rfl, h⟩
  | cons t ts ih =>
    cases pre with
    | nil =>
      simp only [List.cons_append, List.nil_append, List.cons.injEq] at h
      obtain ⟨h1, _⟩ := h
      subst h1
      have : attempts ([t] ++ ts) = [] := ht
      rw [attempts_append] at this
      exact absurd (List.append_eq_nil.mp this).1 hev
    | cons q qs =>
      simp only [List.cons_append, List.cons.injEq] at h
      obtain ⟨h1, h2⟩ := h
      subst h1
      have h3 : attempts ([t] ++ ts) = [] := ht
      rw [attempts_append] at h3
      obtain ⟨pre1, hp, hr⟩ := ih qs (List.append_eq_nil.mp h3).2 h2
      exact ⟨pre1, by rw [hp]; rfl, hr⟩

theorem split_iteration (s0 h0 d0 u0 p0 : String) (e0 : Bool) (tail rest pre post : List Event)
    (s h d u p : String) (e : Bool) (ht : attempts tail = [])
    (heq : Event.sleep :: Event.setup s0 h0 d0 u0 p0 e0 :: tail ++ rest =
      pre ++ Event.setup s h d u p e :: post) :
    (pre = [Event.sleep] ∧ s = s0 ∧ u = u0) ∨
      ∃ pre1, pre = Event.sleep :: Event.setup s0 h0 d0 u0 p0 e0 :: tail ++ pre1 ∧
        rest = pre1 ++ Event.setup s h d u p e :: post := by
  cases pre with
  | nil => simp at heq
  | cons a pre2 =>
    simp only [List.cons_append, List.cons.injEq] at heq
    obtain ⟨ha, heq⟩ := heq
    subst ha
    cases pre2 with
    | nil =>
      simp only [List.nil_append, List.cons.injEq, Event.setup.injEq] at heq
      exact Or.inl ⟨rfl, heq.1.1.symm, heq.1.2.2.2.1.symm⟩
    | cons b pre3 =>
      simp only [List.cons_append, List.cons.injEq] at heq
      obtain ⟨hb, heq⟩ := heq
      subst hb
      obtain ⟨pre1, hp, hr⟩ := split_after_quiet tail rest pre3 post _ (by simp [attempts]) ht heq
      exact Or.inr ⟨pre1, by rw [hp]; rfl, hr⟩

theorem rotate_mod (len x d : Nat) :
    ((if (len : Int) - 1 = (x : Int) then 0 else x + 1) + d) % len = (x + (1 + d)) % len := by
  split_ifs with h
  · have : x + 1 = len := by omega
    rw [← Nat.add_assoc, this, Nat.zero_add, Nat.add_mod_left]
  · rw [Nat.add_assoc]

theorem loop_rotation (c : Colour) (opt : FlagOptions) (w : World)
    (hosts services : List String) (domain password : String) (usernames : List String) :
    ∀ (i x : Nat) (stdin : List String) (pre post : List Event) (s h d u p : String) (e : Bool),
      (loop c opt w hosts services domain password ((services.length : Int) - 1) usernames
        i x stdin).1 = pre ++ Event.setup s h d u p e :: post →
      lockoutPrompts pre ≤ (attempts pre).length ∧
        services[(x + ((attempts pre).length - lockoutPrompts pre)) % services.length]? = some s ∧
        usernames[(attempts pre).length]? = some u := by
  induction usernames with
  | nil =>
    intro i x stdin pre post s h d u p e heq
    simp [loop] at heq
  | cons username usernames ih =>
    intro i x stdin pre post s h d u p e heq
    have hform := iteration_form c opt w hosts services domain password
      ((services.length : Int) - 1) username i x stdin _ rfl
    have hx : ∀ service, services[x]? = some service → x % services.length = x := by
      intro service hs
      have := (List.getElem?_eq_some_iff.mp hs).1
      exact Nat.mod_eq_of_lt this
    rw [loop] at heq
    generalize iteration c opt w hosts services domain password
      ((services.length : Int) - 1) username i x stdin = r at hform heq
    obtain ⟨evs, nx⟩ := r
    simp only at hform heq
    rcases hform with ⟨ha, e1, hn⟩ | ⟨s0, h0, tail, hs, hevs, ht, hn⟩
    · -- no attempt in this pass and the run ends
      subst hn
      simp only at heq
      rw [heq, attempts_append] at ha
      simp [attempts] at ha
    · subst hevs
      have hsplit : ∀ rest, Event.sleep :: Event.setup s0 h0 domain username password opt.enum ::
          tail ++ rest = pre ++ Event.setup s h d u p e :: post →
          (pre = [Event.sleep] ∧ s = s0 ∧ u = username) ∨
          ∃ pre1, rest = pre1 ++ Event.setup s h d u p e :: post ∧
            attempts pre = (s0, username) :: attempts pre1 ∧
            lockoutPrompts pre = lockoutPrompts tail + lockoutPrompts pre1 := by
        intro rest hrest
        rcases split_iteration _ _ _ _ _ _ tail rest pre post s h d u p e ht hrest with
          h1 | ⟨pre1, hpre, hr⟩
        · exact Or.inl h1
        · refine Or.inr ⟨pre1, hr, ?_, ?_⟩
          · rw [hpre]
            show (s0, username) :: attempts (tail ++ pre1) = _
            rw [attempts_append, ht]; rfl
          · rw [hpre]
            show lockoutPrompts ([Event.sleep, Event.setup s0 h0 domain username password
              opt.enum] ++ (tail ++ pre1)) = _
            rw [lockoutPrompts_append, lockoutPrompts_append]
            simp [lockoutPrompts]
      have hfirst : pre = [Event.sleep] ∧ s = s0 ∧ u = username →
          lockoutPrompts pre ≤ (attempts pre).length ∧
          services[(x + ((attempts pre).length - lockoutPrompts pre)) % services.length]? =
            some s ∧
          (username :: usernames)[(attempts pre).length]? = some u := by
        rintro ⟨hpre, hs0, hu0⟩
        subst hpre hs0 hu0
        simp [attempts, lockoutPrompts, hs, hx _ hs]
      rcases hn with ⟨e1, hn⟩ | ⟨hp, stdin1, hn⟩ | ⟨hp, stdin1, hn⟩
      · subst hn
        simp only at heq
        rcases hsplit [] (by rw [List.append_nil]; exact heq) with h1 | ⟨pre1, hr, _, _⟩
        · exact hfirst h1
        · simp at hr
      · subst hn
        simp only at heq
        rcases hsplit _ heq with h1 | ⟨pre1, hr, hA, hP⟩
        · exact hfirst h1
        · obtain ⟨h1, h2, h3⟩ := ih _ _ _ _ _ _ _ _ _ _ _ hr
          rw [hA, hP, hp]
          refine ⟨by simp; omega, ?_, by simpa using h3⟩
          have : (attempts pre1).length + 1 - (1 + lockoutPrompts pre1) =
              (attempts pre1).length - lockoutPrompts pre1 := by omega
          simpa [this] using h2
      · subst hn
        simp only at heq
        rcases hsplit _ heq with h1 | ⟨pre1, hr, hA, hP⟩
        · exact hfirst h1
        · obtain ⟨h1, h2, h3⟩ := ih _ _ _ _ _ _ _ _ _ _ _ hr
          rw [hA, hP, hp]
          refine ⟨by simp; omega, ?_, by simpa using h3⟩
          rw [rotate_mod] at h2
          have : (attempts pre1).length + 1 - lockoutPrompts pre1 =
              1 + ((attempts pre1).length - lockoutPrompts pre1) := by omega
          simpa [this] using h2


theorem iteration_locked (c : Colour) (opt : FlagOptions) (w : World)
    (hosts services : List String) (domain password : String) (lenServices : Int)
    (username : String) (i x : Nat) (stdin : List String)
    (host service : String) (auth : Authenticator) (err : Option String)
    (henum : opt.enum = false)
    (hhost : pickHost opt w hosts i = Except.ok host) (hne : host ≠ "")
    (hsvc : services[x]? = some service)
    (hauth : setup service host domain username password opt.enum = some auth)
    (hlogin : auth.Login c (w.reply i) stdin =
      reports Outcome.AccountLocked c host ⟨username, password, domain⟩ err stdin) :
    iteration c opt w hosts services domain password lenServices username i x stdin =
      ([Event.sleep, Event.setup service host domain username password opt.enum,
        Event.loginReturned (Outcome.AccountLocked.display c host ⟨username, password, domain⟩)
          (Outcome.AccountLocked.plain host ⟨username, password, domain⟩) err,
        Event.println (Outcome.AccountLocked.display c host ⟨username, password, domain⟩),
        Event.print lockoutPrompt, Event.readLine (ReadString stdin).1] ++
        (if Contains (ReadString stdin).1 "y" = true then []
          else [Event.logFatal "Shutting down"]),
        if Contains (ReadString stdin).1 "y" = true then Next.next x (ReadString stdin).2
          else Next.stop Exit.fatal) := by
  have hl := Contains_locked_display c host ⟨username, password, domain⟩
  have hcond : Contains (Outcome.AccountLocked.display c host ⟨username, password, domain⟩)
      "User's Account Locked" = true ∧ opt.enum ≠ true := ⟨hl, by simp [henum]⟩
  simp only [iteration, hhost, if_neg hne, hsvc, hauth, hlogin, reports, afterLogin,
    if_pos hcond]
  split_ifs <;> rfl

theorem afterLogin_appended (opt : FlagOptions) (lenServices : Int) (x : Nat)
    (result forfile : String) (err : Option String) (stdin : List String)
    (hout : opt.outFile ≠ "") :
    appended (afterLogin opt WriteOutcome.done lenServices x result forfile stdin).1 =
      dueLines opt.enum
        (Event.loginReturned result forfile err ::
          (afterLogin opt WriteOutcome.done lenServices x result forfile stdin).1) := by
  by_cases h : Contains result "User's Account Locked" = true ∧ opt.enum ≠ true
  · unfold afterLogin
    by_cases hy : Contains (ReadString stdin).1 "y" = true
    · simp [h, hy, appended, dueLines]
    · simp [h, hy, appended, dueLines]
  · rw [afterLogin_unlocked opt _ lenServices x result forfile stdin h, if_pos hout]
    simp only [writefile, appended, dueLines, if_neg h]

theorem afterLogin_lines (opt : FlagOptions) (wo : WriteOutcome) (lenServices : Int) (x : Nat)
    (result forfile : String) (err : Option String) (stdin : List String)
    (hout : opt.outFile ≠ "") :
    appended (afterLogin opt wo lenServices x result forfile stdin).1 =
        dueLines opt.enum
          (Event.loginReturned result forfile err ::
            (afterLogin opt wo lenServices x result forfile stdin).1) ∨
      ((afterLogin opt wo lenServices x result forfile stdin).2 = Next.stop Exit.panic ∧
        dueLines opt.enum
          (Event.loginReturned result forfile err ::
            (afterLogin opt wo lenServices x result forfile stdin).1) = [forfile ++ "\n"] ∧
        (appended (afterLogin opt wo lenServices x result forfile stdin).1 = [] ∨
          ∃ n, appended (afterLogin opt wo lenServices x result forfile stdin).1 =
            [String.mk ((forfile ++ "\n").data.take n)])) := by
  by_cases h : Contains result "User's Account Locked" = true ∧ opt.enum ≠ true
  · left
    unfold afterLogin
    by_cases hy : Contains (ReadString stdin).1 "y" = true
    · simp [h, hy, appended, dueLines]
    · simp [h, hy, appended, dueLines]
  · cases wo with
    | done => exact Or.inl (afterLogin_appended opt lenServices x result forfile err stdin hout)
    | openFailed msg =>
      right
      rw [afterLogin_unlocked opt _ lenServices x result forfile stdin h, if_pos hout]
      refine ⟨rfl, ?_, Or.inl rfl⟩
      simp only [writefile, dueLines, if_neg h]
    | writeFailed n msg =>
      right
      rw [afterLogin_unlocked opt _ lenServices x result forfile stdin h, if_pos hout]
      refine ⟨rfl, ?_, Or.inr ⟨n, rfl⟩⟩
      simp only [writefile, dueLines, if_neg h]

theorem iteration_appended (c : Colour) (opt : FlagOptions) (w : World)
    (hosts services : List String) (domain password : String) (lenServices : Int)
    (username : String) (i x : Nat) (stdin : List String) (hout : opt.outFile ≠ "")
    (hw : w.write i = WriteOutcome.done) :
    appended (iteration c opt w hosts services domain password lenServices username i x stdin).1 =
      dueLines opt.enum
        (iteration c opt w hosts services domain password lenServices username i x stdin).1 := by
  unfold iteration
  rw [hw]
  split
  · rfl
  · split_ifs with h2
    · rfl
    · split
      · rfl
      · split
        · rfl
        · next auth _ =>
          have hc := login_console c auth (w.reply i) stdin
          simp only []
          split
          · simp [appended_append, dueLines_append, appended_console _ hc,
              dueLines_console _ _ hc, appended, dueLines]
          · simp [appended_append, dueLines_append, appended_console _ hc,
              dueLines_console _ _ hc, appended, dueLines]
          · next result forfile err _ =>
            rw [appended_append, appended_append, dueLines_append, dueLines_append,
              appended_console _ hc, dueLines_console _ _ hc]
            exact afterLogin_appended opt lenServices x result forfile err _ hout

theorem loop_appended (c : Colour) (opt : FlagOptions) (w : World)
    (hosts services : List String) (domain password : String) (lenServices : Int)
    (hout : opt.outFile ≠ "") (hw : ∀ i, w.write i = WriteOutcome.done)
    (usernames : List String) :
    ∀ (i x : Nat) (stdin : List String),
      appended (loop c opt w hosts services domain password lenServices usernames i x stdin).1 =
        dueLines opt.enum
          (loop c opt w hosts services domain password lenServices usernames i x stdin).1 := by
  induction usernames with
  | nil => intro i x stdin; rfl
  | cons username usernames ih =>
    intro i x stdin
    have hit := iteration_appended c opt w hosts services domain password lenServices username
      i x stdin hout (hw i)
    unfold loop
    split
    · next evs e heq =>
      rw [heq] at hit
      exact hit
    · next evs x1 stdin1 heq =>
      rw [heq] at hit
      simp only [appended_append, dueLines_append, ih, hit] at hit ⊢

theorem iteration_lines (c : Colour) (opt : FlagOptions) (w : World)
    (hosts services : List String) (domain password : String) (lenServices : Int)
    (username : String) (i x : Nat) (stdin : List String) (hout : opt.outFile ≠ "") :
    appended (iteration c opt w hosts services domain password lenServices username i x
          stdin).1 =
        dueLines opt.enum
          (iteration c opt w hosts services domain password lenServices username i x stdin).1 ∨
      ((iteration c opt w hosts services domain password lenServices username i x stdin).2 =
          Next.stop Exit.panic ∧
        ∃ line,
          dueLines opt.enum
            (iteration c opt w hosts services domain password lenServices username i x
              stdin).1 = [line] ∧
          (appended (iteration c opt w hosts services domain password lenServices username i x
              stdin).1 = [] ∨
            ∃ n, appended (iteration c opt w hosts services domain password lenServices
              username i x stdin).1 = [String.mk (line.data.take n)])) := by
  unfold iteration
  split
  · exact Or.inl rfl
  · split_ifs with h2
    · exact Or.inl rfl
    · split
      · exact Or.inl rfl
      · split
        · exact Or.inl rfl
        · next auth _ =>
          have hc := login_console c auth (w.reply i) stdin
          simp only []
          split
          · left
            simp [appended_append, dueLines_append, appended_console _ hc,
              dueLines_console _ _ hc, appended, dueLines]
          · left
            simp [appended_append, dueLines_append, appended_console _ hc,
              dueLines_console _ _ hc, appended, dueLines]
          · next result forfile err _ =>
            rw [appended_append, appended_append, dueLines_append, dueLines_append,
              appended_console _ hc, dueLines_console _ _ hc]
            rcases afterLogin_lines opt (w.write i) lenServices x result forfile err
              (Authenticator.Login c auth (w.reply i) stdin).stdin hout with h | ⟨h1, h2, h3⟩
            · exact Or.inl h
            · exact Or.inr ⟨h1, forfile ++ "\n", h2, h3⟩

theorem loop_lines (c : Colour) (opt : FlagOptions) (w : World)
    (hosts services : List String) (domain password : String) (lenServices : Int)
    (hout : opt.outFile ≠ "") (usernames : List String) :
    ∀ (i x : Nat) (stdin : List String),
      appended (loop c opt w hosts services domain password lenServices usernames i x stdin).1 =
          dueLines opt.enum
            (loop c opt w hosts services domain password lenServices usernames i x stdin).1 ∨
        ((loop c opt w hosts services domain password lenServices usernames i x stdin).2 =
            Exit.panic ∧
          ∃ full line,
            dueLines opt.enum
              (loop c opt w hosts services domain password lenServices usernames i x stdin).1 =
              full ++ [line] ∧
            (appended (loop c opt w hosts services domain password lenServices usernames i x
                stdin).1 = full ∨
              ∃ n, appended (loop c opt w hosts services domain password lenServices usernames
                i x stdin).1 = full ++ [String.mk (line.data.take n)])) := by
  induction usernames with
  | nil => intro i x stdin; exact Or.inl rfl
  | cons username usernames ih =>
    intro i x stdin
    have hit := iteration_lines c opt w hosts services domain password lenServices username
      i x stdin hout
    rw [loop]
    generalize iteration c opt w hosts services domain password lenServices username i x
      stdin = r at hit
    obtain ⟨evs, nx⟩ := r
    cases nx with
    | stop e =>
      simp only at hit ⊢
      rcases hit with h | ⟨h1, line, h2, h3⟩
      · exact Or.inl h
      · simp only [Next.stop.injEq] at h1
        subst h1
        refine Or.inr ⟨rfl, [], line, by rw [h2]; rfl, ?_⟩
        rcases h3 with h3 | ⟨n, h3⟩
        · exact Or.inl h3
        · exact Or.inr ⟨n, by rw [h3]; rfl⟩
    | next x1 stdin1 =>
      simp only at hit ⊢
      have hevs : appended evs = dueLines opt.enum evs := by
        rcases hit with h | ⟨h1, _⟩
        · exact h
        · exact absurd h1 (by simp)
      rw [appended_append, dueLines_append, hevs]
      rcases ih (i + 1) x1 stdin1 with h | ⟨h1, full, line, h2, h3⟩
      · exact Or.inl (by rw [h])
      · refine Or.inr ⟨h1, dueLines opt.enum evs ++ full, line, ?_, ?_⟩
        · rw [h2, List.append_assoc]
        · rcases h3 with h3 | ⟨n, h3⟩
          · exact Or.inl (by rw [h3])
          · exact Or.inr ⟨n, by rw [h3, List.append_assoc]⟩

/-! ## The classifier of LDAP.Login -/

/-- C1 (the code at the failing input): the bind error of a locked account whose text ends
in `data 775, v2580` contains the fragment `AcceptSecurityContext error, data 775`, yet
`LDAP.Login` reports `Failed` for it, not `AccountLocked`; in a run against such a domain
controller the lockout prompt is never raised and the next username is tried. -/
theorem ldap_short_fragment_failed :
    Contains
        "80090308: LdapErr: DSID-0C09044E, comment: AcceptSecurityContext error, data 775, v2580"
        "AcceptSecurityContext error, data 775" = true ∧
      LDAP.Login Colour.plain { Host := "dc01", Name := "alice", Password := "pw", Domain := "CORP" }
        none
        (some
          "80090308: LdapErr: DSID-0C09044E, comment: AcceptSecurityContext error, data 775, v2580")
        [] =
      ⟨[], [], Ret.ok "[-]  dc01 CORP\\alice:pw = Failed" "[-]  dc01 CORP\\alice:pw = Failed"
        (some
          "80090308: LdapErr: DSID-0C09044E, comment: AcceptSecurityContext error, data 775, v2580")⟩ ∧
      LDAP.Login Colour.plain { Host := "dc01", Name := "alice", Password := "pw", Domain := "CORP" }
        none
        (some
          "80090308: LdapErr: DSID-0C09044E, comment: AcceptSecurityContext error, data 775, v2580")
        [] ≠
      reports Outcome.AccountLocked Colour.plain "dc01" alice
        (some
          "80090308: LdapErr: DSID-0C09044E, comment: AcceptSecurityContext error, data 775, v2580")
        [] ∧
      lockoutPrompts (main Colour.plain ldapOnly lockedOtherBuild).1 = 0 ∧
      attempts (main Colour.plain ldapOnly lockedOtherBuild).1 =
        [("LDAP", "alice"), ("LDAP", "bob")] := by
  decide

/-- The branches of `LDAP.Login` after the connection is made, as the source has them: the
account is reported locked only when the bind error text contains the literal
`comment: AcceptSecurityContext error, data 775, v3839`; every other bind error text is
reported as `Failed`, and no error as `Success`. -/
theorem ldap_login_classifies (c : Colour) (l : LDAP) (stdin : List String) :
    (∀ err : String,
        Contains err "comment: AcceptSecurityContext error, data 775, v3839" = true →
        LDAP.Login c l none (some err) stdin =
          reports Outcome.AccountLocked c l.Host l.toUser (some err) stdin) ∧
      (∀ err : String,
        Contains err "comment: AcceptSecurityContext error, data 775, v3839" = false →
        LDAP.Login c l none (some err) stdin =
          reports Outcome.Failed c l.Host l.toUser (some err) stdin) ∧
      LDAP.Login c l none none stdin = reports Outcome.Success c l.Host l.toUser none stdin := by
  refine ⟨fun err h => ?_, fun err h => ?_, rfl⟩
  · simp only [LDAP.Login, h, if_true]
    rfl
  · simp only [LDAP.Login, h]
    rfl

/-- The branches of `LDAP.Login` at a bind error that carries the literal of the source. -/
theorem ldap_login_classifies_witness :
    Contains
        "80090308: LdapErr: DSID-0C090447, comment: AcceptSecurityContext error, data 775, v3839"
        "comment: AcceptSecurityContext error, data 775, v3839" = true ∧
      LDAP.Login Colour.plain { Host := "dc01", Name := "alice", Password := "pw", Domain := "CORP" }
        none
        (some
          "80090308: LdapErr: DSID-0C090447, comment: AcceptSecurityContext error, data 775, v3839")
        [] =
      ⟨[], [], Ret.ok "[-]  dc01 CORP\\alice:pw = User's Account Locked"
        "[-]  dc01 CORP\\alice:pw = User's Account Locked"
        (some
          "80090308: LdapErr: DSID-0C090447, comment: AcceptSecurityContext error, data 775, v3839")⟩ :=
  ⟨by decide,
    (ldap_login_classifies Colour.plain
      { Host := "dc01", Name := "alice", Password := "pw", Domain := "CORP" } []).1 _ (by decide)⟩

/-! ## The classifier of KERB.Login -/

/-- C2 (as stated, refuted): in enumeration mode an error text that contains
`KDC_ERR_PREAUTH_FAILED` and also `KDC_ERR_C_PRINCIPAL_UNKNOWN` is reported as
`User Does Not Exist`, not as `User Exist`. -/
theorem kerb_enum_preauth_shadowed :
    Contains "KDC_ERR_PREAUTH_FAILED KDC_ERR_C_PRINCIPAL_UNKNOWN" "KDC_ERR_PREAUTH_FAILED" = true ∧
      KERB.Login Colour.plain
        { Host := "dc01", Name := "alice", Password := " ", Domain := "CORP", Enum := true }
        none (some "KDC_ERR_PREAUTH_FAILED KDC_ERR_C_PRINCIPAL_UNKNOWN") [] =
      ⟨[], [], Ret.ok "[-]  dc01 CORP\\alice:  = User Does Not Exist"
        "[-]  dc01 CORP\\alice:  = User Does Not Exist"
        (some "KDC_ERR_PREAUTH_FAILED KDC_ERR_C_PRINCIPAL_UNKNOWN")⟩ ∧
      KERB.Login Colour.plain
        { Host := "dc01", Name := "alice", Password := " ", Domain := "CORP", Enum := true }
        none (some "KDC_ERR_PREAUTH_FAILED KDC_ERR_C_PRINCIPAL_UNKNOWN") [] ≠
      reports Outcome.UserExists Colour.plain "dc01" ⟨"alice", " ", "CORP"⟩
        (some "KDC_ERR_PREAUTH_FAILED KDC_ERR_C_PRINCIPAL_UNKNOWN") [] := by
  decide

/-- C2 (amended): in enumeration mode, for an error text that contains none of the
fragments tried earlier (KDC unreachable, `(37) KRB_AP_ERR_SKEW Clock skew`,
`KDC_ERR_CLIENT_REVOKED`), `KERB.Login` reports `UserNotExist` when the text contains
`KDC_ERR_C_PRINCIPAL_UNKNOWN`, and `UserExists` when it contains `KDC_ERR_PREAUTH_FAILED`
and not `KDC_ERR_C_PRINCIPAL_UNKNOWN`. -/
theorem kerb_enum_unknown_and_preauth (c : Colour) (k : KERB) (stdin : List String)
    (err : String) (hk : k.Enum = true)
    (hnet : Contains err kdcUnreachable = false)
    (hskew : Contains err "(37) KRB_AP_ERR_SKEW Clock skew" = false)
    (hrev : Contains err "KDC_ERR_CLIENT_REVOKED" = false) :
    (Contains err "KDC_ERR_C_PRINCIPAL_UNKNOWN" = true →
        KERB.Login c k none (some err) stdin =
          reports Outcome.UserNotExist c k.Host k.toUser (some err) stdin) ∧
      (Contains err "KDC_ERR_C_PRINCIPAL_UNKNOWN" = false →
        Contains err "KDC_ERR_PREAUTH_FAILED" = true →
        KERB.Login c k none (some err) stdin =
          reports Outcome.UserExists c k.Host k.toUser (some err) stdin) := by
  refine ⟨fun h => ?_, fun h1 h2 => ?_⟩
  · simp only [KERB.Login, KERB.enumTable, hk, hnet, hskew, hrev, h]
    rfl
  · simp only [KERB.Login, KERB.enumTable, hk, hnet, hskew, hrev, h1, h2]
    rfl

/-- C2 (amended), at the error texts of an unknown principal and of a failed
pre-authentication. -/
theorem kerb_enum_unknown_and_preauth_witness :
    KERB.Login Colour.plain
        { Host := "dc01", Name := "alice", Password := " ", Domain := "CORP", Enum := true } none
        (some "KRB Error: (24) KDC_ERR_PREAUTH_FAILED Pre-authentication information was invalid")
        [] =
      ⟨[], [], Ret.ok "[+]  dc01 CORP\\alice:  = User Exist" "[+]  dc01 CORP\\alice:  = User Exist"
        (some
          "KRB Error: (24) KDC_ERR_PREAUTH_FAILED Pre-authentication information was invalid")⟩ :=
  (kerb_enum_unknown_and_preauth Colour.plain
    { Host := "dc01", Name := "alice", Password := " ", Domain := "CORP", Enum := true } []
    "KRB Error: (24) KDC_ERR_PREAUTH_FAILED Pre-authentication information was invalid"
    rfl (by decide) (by decide) (by decide)).2 (by decide) (by decide)

/-- C3: in normal mode `KERB.Login` reports `Success` when the client returns no error;
for an error text without the KDC-unreachable fragment it ends the process when the text
contains `(37) KRB_AP_ERR_SKEW`, reports `AccountLocked` when the text contains
`KDC_ERR_CLIENT_REVOKED` and no clock skew fragment, and reports `Failed` otherwise. -/
theorem kerb_login_normal_mode (c : Colour) (k : KERB) (stdin : List String)
    (hk : k.Enum = false) :
    KERB.Login c k none none stdin = reports Outcome.Success c k.Host k.toUser none stdin ∧
      ∀ err : String, Contains err kdcUnreachable = false →
        (Contains err "(37) KRB_AP_ERR_SKEW" = true →
          (KERB.Login c k none (some err) stdin).ret = Ret.fatal) ∧
        (Contains err "(37) KRB_AP_ERR_SKEW" = false →
          Contains err "KDC_ERR_CLIENT_REVOKED" = true →
          KERB.Login c k none (some err) stdin =
            reports Outcome.AccountLocked c k.Host k.toUser (some err) stdin) ∧
        (Contains err "(37) KRB_AP_ERR_SKEW" = false →
          Contains err "KDC_ERR_CLIENT_REVOKED" = false →
          KERB.Login c k none (some err) stdin =
            reports Outcome.Failed c k.Host k.toUser (some err) stdin) := by
  refine ⟨rfl, fun err hnet => ⟨fun h => ?_, fun h1 h2 => ?_, fun h1 h2 => ?_⟩⟩
  · simp [KERB.Login, KERB.normalTable, hk, hnet, h, skewFatal]
  · simp only [KERB.Login, KERB.normalTable, hk, hnet, h1, h2]
    rfl
  · simp only [KERB.Login, KERB.normalTable, hk, hnet, h1, h2]
    rfl

/-- C3, at the error text of a revoked account. -/
theorem kerb_login_normal_mode_witness :
    Contains "KRB Error: (18) KDC_ERR_CLIENT_REVOKED Clients credentials have been revoked"
        kdcUnreachable = false ∧
      KERB.Login Colour.plain
        { Host := "dc01", Name := "alice", Password := "pw", Domain := "CORP", Enum := false }
        none (some "KRB Error: (18) KDC_ERR_CLIENT_REVOKED Clients credentials have been revoked")
        ["n\n"] =
      ⟨[], ["n\n"], Ret.ok "[-]  dc01 CORP\\alice:pw = User's Account Locked"
        "[-]  dc01 CORP\\alice:pw = User's Account Locked"
        (some "KRB Error: (18) KDC_ERR_CLIENT_REVOKED Clients credentials have been revoked")⟩ :=
  ⟨by decide,
    ((kerb_login_normal_mode Colour.plain
      { Host := "dc01", Name := "alice", Password := "pw", Domain := "CORP", Enum := false }
      ["n\n"] rfl).2 _ (by decide)).2.1 (by decide) (by decide)⟩

/-! ## The scheduler -/

/-- C4: in non-enumeration mode, when the attempt of a pass through the loop body reports
`AccountLocked` (whichever authenticator `setup` returned), the pass raises the lockout
prompt exactly once, makes this one attempt and appends nothing to the output file; when
the answer of the operator does not contain `y` the run ends there with `log.Fatal`, so
its trace is the trace of this pass; when the answer contains `y` the loop goes on with the
usernames that follow, with the same rotation index. -/
theorem lockout_prompt (c : Colour) (opt : FlagOptions) (w : World)
    (hosts services : List String) (domain password : String) (lenServices : Int)
    (username : String) (usernames : List String) (i x : Nat) (stdin : List String)
    (host service : String) (auth : Authenticator) (err : Option String)
    (henum : opt.enum = false)
    (hhost : pickHost opt w hosts i = Except.ok host) (hne : host ≠ "")
    (hsvc : services[x]? = some service)
    (hauth : setup service host domain username password opt.enum = some auth)
    (hlogin : auth.Login c (w.reply i) stdin =
      reports Outcome.AccountLocked c host ⟨username, password, domain⟩ err stdin) :
    lockoutPrompts
        (iteration c opt w hosts services domain password lenServices username i x stdin).1 = 1 ∧
      attempts
        (iteration c opt w hosts services domain password lenServices username i x stdin).1 =
        [(service, username)] ∧
      appended
        (iteration c opt w hosts services domain password lenServices username i x stdin).1 = [] ∧
      (Contains (ReadString stdin).1 "y" = false →
        loop c opt w hosts services domain password lenServices (username :: usernames) i x stdin =
          ((iteration c opt w hosts services domain password lenServices username i x stdin).1,
            Exit.fatal)) ∧
      (Contains (ReadString stdin).1 "y" = true →
        loop c opt w hosts services domain password lenServices (username :: usernames) i x stdin =
          ((iteration c opt w hosts services domain password lenServices username i x stdin).1 ++
            (loop c opt w hosts services domain password lenServices usernames (i + 1) x
              (ReadString stdin).2).1,
           (loop c opt w hosts services domain password lenServices usernames (i + 1) x
              (ReadString stdin).2).2)) := by
  have hit := iteration_locked c opt w hosts services domain password lenServices username i x
    stdin host service auth err henum hhost hne hsvc hauth hlogin
  refine ⟨?_, ?_, ?_, fun hy => ?_, fun hy => ?_⟩
  · rw [hit]
    split_ifs <;> simp [lockoutPrompts]
  · rw [hit]
    split_ifs <;> rfl
  · rw [hit]
    split_ifs <;> rfl
  · rw [loop, hit]
    simp [hy]
  · rw [loop, hit]
    simp [hy]

/-- C4, at the first pass of a run in which Kerberos reports `alice` as revoked and the
operator answers `y`. -/
theorem lockout_prompt_witness :
    lockoutPrompts
        (iteration Colour.plain bothServices lockedThenFine ["dc01"] ["KERB", "LDAP"] "CORP" "pw" 1
          "alice" 0 0 ["y\n"]).1 = 1 ∧
      appended
        (iteration Colour.plain bothServices lockedThenFine ["dc01"] ["KERB", "LDAP"] "CORP" "pw" 1
          "alice" 0 0 ["y\n"]).1 = [] :=
  ⟨(lockout_prompt Colour.plain bothServices lockedThenFine ["dc01"] ["KERB", "LDAP"] "CORP" "pw"
      1 "alice" ["bob"] 0 0 ["y\n"] "dc01" "KERB"
      (Authenticator.kerb
        { Host := "dc01", Name := "alice", Password := "pw", Domain := "CORP", Enum := false })
      (some "KRB Error: (18) KDC_ERR_CLIENT_REVOKED Clients credentials have been revoked")
      (by decide) rfl (by decide) (by decide) (by decide) (by decide)).1,
    (lockout_prompt Colour.plain bothServices lockedThenFine ["dc01"] ["KERB", "LDAP"] "CORP" "pw"
      1 "alice" ["bob"] 0 0 ["y\n"] "dc01" "KERB"
      (Authenticator.kerb
        { Host := "dc01", Name := "alice", Password := "pw", Domain := "CORP", Enum := false })
      (some "KRB Error: (18) KDC_ERR_CLIENT_REVOKED Clients credentials have been revoked")
      (by decide) rfl (by decide) (by decide) (by decide) (by decide)).2.2.1⟩

/-- C5 (as stated, refuted): with the services `KERB`, `LDAP` and the usernames `alice`,
`bob`, when the attempt for `alice` reports a locked account and the operator answers `y`,
the attempt for `bob` (username 1) uses `KERB`, while `services[1 mod 2]` is `LDAP`. -/
theorem rotation_skipped_after_lockout :
    attempts
        (schedule Colour.plain bothServices lockedThenFine ["dc01"] ["KERB", "LDAP"] "CORP" "pw"
          ["alice", "bob"]).1 = [("KERB", "alice"), ("KERB", "bob")] ∧
      ["KERB", "LDAP"][1 % ["KERB", "LDAP"].length]? = some "LDAP" := by
  decide

/-- C5 (amended): in every run of the loop, the attempt number `i` (counting from 0) is
made for username `i` and uses `services[(i - k) mod len(services)]`, where `k` is the
number of lockout prompts raised before it: the rotation index advances, wrapping modulo
the list length, once per username whose pass is not cut short by the lockout prompt. With
no lockout prompt before it, the attempt uses `services[i mod len(services)]`. -/
theorem rotation_per_completed_pass (c : Colour) (opt : FlagOptions) (w : World)
    (hosts services : List String) (domain password : String) (usernames : List String)
    (pre post : List Event) (s h d u p : String) (e : Bool)
    (htrace : (schedule c opt w hosts services domain password usernames).1 =
      pre ++ Event.setup s h d u p e :: post) :
    lockoutPrompts pre ≤ (attempts pre).length ∧
      services[((attempts pre).length - lockoutPrompts pre) % services.length]? = some s ∧
      usernames[(attempts pre).length]? = some u ∧
      (lockoutPrompts pre = 0 → services[(attempts pre).length % services.length]? = some s) := by
  obtain ⟨h1, h2, h3⟩ := loop_rotation c opt w hosts services domain password usernames 0 0
    w.stdin pre post s h d u p e htrace
  rw [Nat.zero_add] at h2
  refine ⟨h1, h2, h3, fun h0 => ?_⟩
  rw [h0, Nat.sub_zero] at h2
  exact h2

/-- C5 (amended), at the attempt for `bob` in the run where `alice` is locked and the
operator answers `y`. -/
theorem rotation_per_completed_pass_witness :
    ["KERB", "LDAP"][((attempts
        ((schedule Colour.plain bothServices lockedThenFine ["dc01"] ["KERB", "LDAP"] "CORP" "pw"
          ["alice", "bob"]).1.take 7)).length -
        lockoutPrompts
          ((schedule Colour.plain bothServices lockedThenFine ["dc01"] ["KERB", "LDAP"] "CORP" "pw"
            ["alice", "bob"]).1.take 7)) % ["KERB", "LDAP"].length]? = some "KERB" :=
  (rotation_per_completed_pass Colour.plain bothServices lockedThenFine ["dc01"] ["KERB", "LDAP"]
    "CORP" "pw" ["alice", "bob"]
    ((schedule Colour.plain bothServices lockedThenFine ["dc01"] ["KERB", "LDAP"] "CORP" "pw"
      ["alice", "bob"]).1.take 7)
    ((schedule Colour.plain bothServices lockedThenFine ["dc01"] ["KERB", "LDAP"] "CORP" "pw"
      ["alice", "bob"]).1.drop 8)
    "KERB" "dc01" "CORP" "bob" "pw" false (by decide)).2.1

/-- The example of the specification: with the services `KERB`, `LDAP` and five usernames,
when no attempt is locked, the services used are `KERB`, `LDAP`, `KERB`, `LDAP`, `KERB`. -/
theorem rotation_example :
    (attempts
        (schedule Colour.plain bothServices allFine ["dc01"] ["KERB", "LDAP"] "CORP" "pw"
          ["u0", "u1", "u2", "u3", "u4"]).1).map Prod.fst =
      ["KERB", "LDAP", "KERB", "LDAP", "KERB"] := by
  decide

/-- C6 (as stated, refuted): in the run where `alice` is reported locked and the operator
answers `y`, the attempt for `alice` returns its plain result line and the run goes on to
its end, yet the only text appended to the output file is the line of `bob`. -/
theorem locked_line_not_written :
    (main Colour.plain bothServices lockedThenFine).2 = Exit.returned ∧
      Event.loginReturned "[-]  dc01 CORP\\alice:pw = User's Account Locked"
        "[-]  dc01 CORP\\alice:pw = User's Account Locked"
        (some "KRB Error: (18) KDC_ERR_CLIENT_REVOKED Clients credentials have been revoked") ∈
        (main Colour.plain bothServices lockedThenFine).1 ∧
      appended (main Colour.plain bothServices lockedThenFine).1 =
        ["[+]  dc01 CORP\\bob:pw = Success\n"] := by
  decide

/-- A run in which the output file cannot be opened: the first attempt succeeds and is
displayed, then `writefile` panics; nothing is appended and `bob` is not tried. -/
theorem unwritable_file_panics :
    (main Colour.plain bothServices unwritable).2 = Exit.panic ∧
      appended (main Colour.plain bothServices unwritable).1 = [] ∧
      dueLines false (main Colour.plain bothServices unwritable).1 =
        ["[+]  dc01 CORP\\alice:pw = Success\n"] ∧
      attempts (main Colour.plain bothServices unwritable).1 = [("KERB", "alice")] := by
  decide

/-- C6 (amended): when an output file is configured, in every run in which no call of
`writefile` fails the texts appended to the file are exactly, in attempt order, the file
string followed by a newline of every attempt whose `Login` returned and whose pass did not
raise the lockout prompt (in non-enumeration mode: whose display string does not contain
`User's Account Locked`); an attempt that returned empty strings after a connection prompt
contributes a bare newline, and an attempt that raised the lockout prompt contributes
nothing. In every run, either that holds, or the run ended with a panic and all these lines
but the last were appended, followed by at most a part of the last one. -/
theorem file_lines (c : Colour) (opt : FlagOptions) (w : World)
    (hosts services : List String) (domain password : String) (usernames : List String)
    (hout : opt.outFile ≠ "") :
    ((∀ i, w.write i = WriteOutcome.done) →
        appended (schedule c opt w hosts services domain password usernames).1 =
          dueLines opt.enum (schedule c opt w hosts services domain password usernames).1) ∧
      (appended (schedule c opt w hosts services domain password usernames).1 =
          dueLines opt.enum (schedule c opt w hosts services domain password usernames).1 ∨
        ((schedule c opt w hosts services domain password usernames).2 = Exit.panic ∧
          ∃ full line,
            dueLines opt.enum (schedule c opt w hosts services domain password usernames).1 =
              full ++ [line] ∧
            (appended (schedule c opt w hosts services domain password usernames).1 = full ∨
              ∃ n, appended (schedule c opt w hosts services domain password usernames).1 =
                full ++ [String.mk (line.data.take n)]))) :=
  ⟨fun hw => loop_appended c opt w hosts services domain password _ hout hw usernames 0 0
      w.stdin,
    loop_lines c opt w hosts services domain password _ hout usernames 0 0 w.stdin⟩

/-- C6 (amended), at the run where every attempt succeeds and every write succeeds. -/
theorem file_lines_witness :
    appended
        (schedule Colour.plain bothServices allFine ["dc01"] ["KERB", "LDAP"] "CORP" "pw"
          ["alice", "bob"]).1 =
      ["[+]  dc01 CORP\\alice:pw = Success\n", "[+]  dc01 CORP\\bob:pw = Success\n"] :=
  ((file_lines Colour.plain bothServices allFine ["dc01"] ["KERB", "LDAP"] "CORP" "pw"
    ["alice", "bob"] (by decide)).1 (fun _ => rfl)).trans (by decide)

/-! ## The classifier of KERB.Login: precedence and prompts -/

/-- C7 (as stated, refuted): an error text with the clock skew fragment and the
KDC-unreachable fragment makes `KERB.Login` return empty strings when the operator answers
`y`; and in enumeration mode an error text with `(37) KRB_AP_ERR_SKEW` not followed by
` Clock skew` that also contains `KDC_ERR_PREAUTH_FAILED` is reported as `User Exist`. -/
theorem kerb_skew_not_always_fatal :
    (Contains "AS_REQ to KDC: failed to communicate with KDC (37) KRB_AP_ERR_SKEW"
        "(37) KRB_AP_ERR_SKEW" = true ∧
      (KERB.Login Colour.plain
        { Host := "dc01", Name := "alice", Password := "pw", Domain := "CORP", Enum := false }
        none (some "AS_REQ to KDC: failed to communicate with KDC (37) KRB_AP_ERR_SKEW")
        ["y\n"]).ret = Ret.ok "" "" none) ∧
    (Contains "KRB Error: (37) KRB_AP_ERR_SKEW KDC_ERR_PREAUTH_FAILED" "(37) KRB_AP_ERR_SKEW" = true ∧
      (KERB.Login Colour.plain
        { Host := "dc01", Name := "alice", Password := " ", Domain := "CORP", Enum := true }
        none (some "KRB Error: (37) KRB_AP_ERR_SKEW KDC_ERR_PREAUTH_FAILED") []).ret =
      Ret.ok "[+]  dc01 CORP\\alice:  = User Exist" "[+]  dc01 CORP\\alice:  = User Exist"
        (some "KRB Error: (37) KRB_AP_ERR_SKEW KDC_ERR_PREAUTH_FAILED")) := by
  decide

/-- C7 (amended): for every Kerberos error text without the KDC-unreachable fragment,
`KERB.Login` ends the process in both modes when the text contains
`(37) KRB_AP_ERR_SKEW Clock skew`; in normal mode the shorter `(37) KRB_AP_ERR_SKEW` is
enough; in enumeration mode the shorter fragment ends the process when the text contains
neither `KDC_ERR_CLIENT_REVOKED` nor a fragment special to enumeration. -/
theorem kerb_skew_fatal (c : Colour) (k : KERB) (stdin : List String) (err : String)
    (hnet : Contains err kdcUnreachable = false) :
    (Contains err "(37) KRB_AP_ERR_SKEW Clock skew" = true →
        (KERB.Login c k none (some err) stdin).ret = Ret.fatal) ∧
      (k.Enum = false → Contains err "(37) KRB_AP_ERR_SKEW" = true →
        (KERB.Login c k none (some err) stdin).ret = Ret.fatal) ∧
      (k.Enum = true → Contains err "(37) KRB_AP_ERR_SKEW" = true →
        Contains err "KDC_ERR_CLIENT_REVOKED" = false → firstMatch err enumSpecific = none →
        (KERB.Login c k none (some err) stdin).ret = Ret.fatal) := by
  refine ⟨fun h => ?_, fun hk h => ?_, fun hk h hrev hm => ?_⟩
  · have hs := skew_short_of_long err h
    cases hE : k.Enum <;>
      simp [KERB.Login, KERB.normalTable, KERB.enumTable, hE, hnet, h, hs, skewFatal]
  · simp [KERB.Login, KERB.normalTable, hk, hnet, h, skewFatal]
  · simp only [firstMatch, enumSpecific] at hm
    by_cases h1 : Contains err "KDC_ERR_C_PRINCIPAL_UNKNOWN" = true
    · simp [h1] at hm
    by_cases h2 : Contains err "KDC_ERR_PREAUTH_FAILED" = true
    · simp [h1, h2] at hm
    by_cases h3 : Contains err decryptVerification = true
    · simp [h1, h2, h3] at hm
    by_cases h4 : Contains err kdcPolicy = true
    · simp [h1, h2, h3, h4] at hm
    by_cases h5 : Contains err etypeNosupp = true
    · simp [h1, h2, h3, h4, h5] at hm
    by_cases h6 : Contains err decryptChecksum = true
    · simp [h1, h2, h3, h4, h5, h6] at hm
    by_cases h0 : Contains err "(37) KRB_AP_ERR_SKEW Clock skew" = true
    · simp [KERB.Login, KERB.enumTable, hk, hnet, h0, skewFatal]
    · simp [KERB.Login, KERB.normalTable, KERB.enumTable, hk, hnet, h, hrev, h0, h1, h2, h3, h4,
        h5, h6, skewFatal]

/-- C7 (amended), at the error text of a clock skew, in enumeration mode. -/
theorem kerb_skew_fatal_witness :
    Contains "KRB Error: (37) KRB_AP_ERR_SKEW Clock skew too great KDC_ERR_PREAUTH_FAILED"
        kdcUnreachable = false ∧
      (KERB.Login Colour.ansi
        { Host := "dc01", Name := "alice", Password := " ", Domain := "CORP", Enum := true } none
        (some "KRB Error: (37) KRB_AP_ERR_SKEW Clock skew too great KDC_ERR_PREAUTH_FAILED")
        ["y\n"]).ret = Ret.fatal :=
  ⟨by decide,
    (kerb_skew_fatal Colour.ansi
      { Host := "dc01", Name := "alice", Password := " ", Domain := "CORP", Enum := true } ["y\n"]
      "KRB Error: (37) KRB_AP_ERR_SKEW Clock skew too great KDC_ERR_PREAUTH_FAILED"
      (by decide)).1 (by decide)⟩

/-- C8 (as stated, refuted): in enumeration mode an error text with the fragment
`KDC_ERR_C_PRINCIPAL_UNKNOWN` and the fragment `KDC_ERR_CLIENT_REVOKED` is reported as
`User's Account Locked`, not as `User Does Not Exist`. -/
theorem kerb_enum_revoked_first :
    Contains "KDC_ERR_C_PRINCIPAL_UNKNOWN KDC_ERR_CLIENT_REVOKED" "KDC_ERR_C_PRINCIPAL_UNKNOWN" = true ∧
      Contains "KDC_ERR_C_PRINCIPAL_UNKNOWN KDC_ERR_CLIENT_REVOKED" "KDC_ERR_CLIENT_REVOKED" = true ∧
      KERB.Login Colour.plain
        { Host := "dc01", Name := "alice", Password := " ", Domain := "CORP", Enum := true }
        none (some "KDC_ERR_C_PRINCIPAL_UNKNOWN KDC_ERR_CLIENT_REVOKED") [] =
      ⟨[], [], Ret.ok "[-]  dc01 CORP\\alice:  = User's Account Locked"
        "[-]  dc01 CORP\\alice:  = User's Account Locked"
        (some "KDC_ERR_C_PRINCIPAL_UNKNOWN KDC_ERR_CLIENT_REVOKED")⟩ ∧
      KERB.Login Colour.plain
        { Host := "dc01", Name := "alice", Password := " ", Domain := "CORP", Enum := true }
        none (some "KDC_ERR_C_PRINCIPAL_UNKNOWN KDC_ERR_CLIENT_REVOKED") [] ≠
      reports Outcome.UserNotExist Colour.plain "dc01" ⟨"alice", " ", "CORP"⟩
        (some "KDC_ERR_C_PRINCIPAL_UNKNOWN KDC_ERR_CLIENT_REVOKED") [] := by
  decide

/-- C8 (amended): in enumeration mode, for an error text without the KDC-unreachable
fragment and without `(37) KRB_AP_ERR_SKEW Clock skew`: when the text contains
`KDC_ERR_CLIENT_REVOKED` the outcome is `AccountLocked`, whatever else it contains; when
it does not, the outcome is the one attached to the first fragment special to enumeration
that it contains; and the enumeration block falls through to the normal-mode table exactly
when the text contains neither `KDC_ERR_CLIENT_REVOKED` nor a fragment special to
enumeration. -/
theorem kerb_enum_precedence (c : Colour) (k : KERB) (stdin : List String) (err : String)
    (hk : k.Enum = true) (hnet : Contains err kdcUnreachable = false)
    (hskew : Contains err "(37) KRB_AP_ERR_SKEW Clock skew" = false) :
    (Contains err "KDC_ERR_CLIENT_REVOKED" = true →
        KERB.Login c k none (some err) stdin =
          reports Outcome.AccountLocked c k.Host k.toUser (some err) stdin) ∧
      (Contains err "KDC_ERR_CLIENT_REVOKED" = false →
        ∀ o : Outcome, firstMatch err enumSpecific = some o →
          KERB.Login c k none (some err) stdin =
            reports o c k.Host k.toUser (some err) stdin) ∧
      (KERB.enumTable c k err stdin = none ↔
        Contains err "KDC_ERR_CLIENT_REVOKED" = false ∧ firstMatch err enumSpecific = none) := by
  refine ⟨fun h => ?_, fun h o ho => ?_, ?_⟩
  · simp only [KERB.Login, KERB.enumTable, hk, hnet, hskew, h]
    rfl
  · simp only [KERB.Login, hk, hnet, enumTable_of_firstMatch c k stdin err hskew h, ho]
    rfl
  · cases hrev : Contains err "KDC_ERR_CLIENT_REVOKED"
    · rw [enumTable_of_firstMatch c k stdin err hskew hrev]
      simp
    · simp [KERB.enumTable, hskew, hrev]

/-- C8 (amended), at an error text of a revoked account that also contains
`KDC_ERR_PREAUTH_FAILED`. -/
theorem kerb_enum_precedence_witness :
    KERB.Login Colour.plain
        { Host := "dc01", Name := "alice", Password := " ", Domain := "CORP", Enum := true } none
        (some "KRB Error: (18) KDC_ERR_CLIENT_REVOKED Clients credentials have been revoked KDC_ERR_PREAUTH_FAILED")
        [] =
      ⟨[], [], Ret.ok "[-]  dc01 CORP\\alice:  = User's Account Locked"
        "[-]  dc01 CORP\\alice:  = User's Account Locked"
        (some
          "KRB Error: (18) KDC_ERR_CLIENT_REVOKED Clients credentials have been revoked KDC_ERR_PREAUTH_FAILED")⟩ :=
  (kerb_enum_precedence Colour.plain
    { Host := "dc01", Name := "alice", Password := " ", Domain := "CORP", Enum := true } []
    "KRB Error: (18) KDC_ERR_CLIENT_REVOKED Clients credentials have been revoked KDC_ERR_PREAUTH_FAILED"
    rfl (by decide) (by decide)).1 (by decide)

/-- C9: for every Kerberos error text with the KDC-unreachable fragment, in both modes and
whatever else the text contains, `KERB.Login` prints the network error and the prompt and
reads the answer of the operator; when the answer contains `y` it returns the empty display
string, the empty file string and no error, otherwise it ends the process. -/
theorem kerb_login_unreachable (c : Colour) (k : KERB) (stdin : List String) (err : String)
    (h : Contains err kdcUnreachable = true) :
    (Contains (ReadString stdin).1 "y" = true →
        KERB.Login c k none (some err) stdin =
          ⟨[Event.println
              ("[Root cause: Networking_Error] Networking_Error: AS Exchange Error: failed sending AS_REQ to KDC: failed to communicate with KDC "
                ++ k.Host),
            Event.print "[*] Do you want to continue.[y/n]: ",
            Event.readLine (ReadString stdin).1],
            (ReadString stdin).2, Ret.ok "" "" none⟩) ∧
      (Contains (ReadString stdin).1 "y" = false →
        KERB.Login c k none (some err) stdin =
          ⟨[Event.println
              ("[Root cause: Networking_Error] Networking_Error: AS Exchange Error: failed sending AS_REQ to KDC: failed to communicate with KDC "
                ++ k.Host),
            Event.print "[*] Do you want to continue.[y/n]: ",
            Event.readLine (ReadString stdin).1,
            Event.logFatal "[*] Shutting down"],
            (ReadString stdin).2, Ret.fatal⟩) := by
  refine ⟨fun hy => ?_, fun hy => ?_⟩
  · simp only [KERB.Login, h, hy, if_true]
  · simp only [KERB.Login, h, hy, if_true]
    rfl

/-- C9, at an error text that also has the client-revoked and clock skew fragments. -/
theorem kerb_login_unreachable_witness :
    (KERB.Login Colour.ansi
        { Host := "dc01", Name := "alice", Password := " ", Domain := "CORP", Enum := true } none
        (some
          "[Root cause: Networking_Error] Networking_Error: AS Exchange Error: failed sending AS_REQ to KDC: failed to communicate with KDC dc01 KDC_ERR_CLIENT_REVOKED (37) KRB_AP_ERR_SKEW Clock skew")
        ["yes\n", "n\n"]).ret = Ret.ok "" "" none :=
  congrArg LoginOut.ret
    ((kerb_login_unreachable Colour.ansi
      { Host := "dc01", Name := "alice", Password := " ", Domain := "CORP", Enum := true }
      ["yes\n", "n\n"]
      "[Root cause: Networking_Error] Networking_Error: AS Exchange Error: failed sending AS_REQ to KDC: failed to communicate with KDC dc01 KDC_ERR_CLIENT_REVOKED (37) KRB_AP_ERR_SKEW Clock skew"
      (by decide)).1 (by decide))

/-! ## The two renderings -/

/-- C10: whenever `LDAP.Login` or `KERB.Login` returns, either both strings are empty (the
return after a prompt, without outcome) or there is an outcome such that the file string is
`marker host domain\username:password = label` and the display string is the same text
with marker and label decorated, green for the marker `[+] ` and red for the marker `[-] `;
with the decoration removed (no colour) the display string is the file string. -/
theorem login_two_renderings (c : Colour) (stdin : List String) (result forfile : String)
    (err : Option String) :
    (∀ (l : LDAP) (dial bind : Option String),
        (LDAP.Login c l dial bind stdin).ret = Ret.ok result forfile err →
        (result = "" ∧ forfile = "") ∨
          ∃ o : Outcome,
            ((o.marker = "[+] " ∧ ∀ s, o.paint c s = c.GreenString s) ∨
              (o.marker = "[-] " ∧ ∀ s, o.paint c s = c.RedString s)) ∧
            forfile = Sprintf o.marker l.Host l.Domain l.Name l.Password o.label ∧
            result = Sprintf (o.paint c o.marker) l.Host l.Domain l.Name l.Password
              (o.paint c o.label) ∧
            (LDAP.Login Colour.plain l dial bind stdin).ret = Ret.ok forfile forfile err) ∧
      (∀ (k : KERB) (config login : Option String),
        (KERB.Login c k config login stdin).ret = Ret.ok result forfile err →
        (result = "" ∧ forfile = "") ∨
          ∃ o : Outcome,
            ((o.marker = "[+] " ∧ ∀ s, o.paint c s = c.GreenString s) ∨
              (o.marker = "[-] " ∧ ∀ s, o.paint c s = c.RedString s)) ∧
            forfile = Sprintf o.marker k.Host k.Domain k.Name k.Password o.label ∧
            result = Sprintf (o.paint c o.marker) k.Host k.Domain k.Name k.Password
              (o.paint c o.label) ∧
            (KERB.Login Colour.plain k config login stdin).ret = Ret.ok forfile forfile err) := by
  constructor
  · intro l dial bind h
    rcases ldap_login_shape l dial bind stdin with h0 | h0 | ⟨o, h0⟩
    · rw [h0 c] at h
      simp only [Ret.ok.injEq] at h
      exact Or.inl ⟨h.1.symm, h.2.1.symm⟩
    · rw [h0 c] at h
      exact absurd h (by simp)
    · rw [h0 c] at h
      rw [h0 Colour.plain]
      exact Or.inr ⟨o, reports_lines o c l.Host l.toUser bind stdin result forfile err h⟩
  · intro k config login h
    rcases kerb_login_shape k config login stdin with h0 | h0 | h0 | ⟨o, h0⟩
    · rw [h0 c] at h
      simp only [Ret.ok.injEq] at h
      exact Or.inl ⟨h.1.symm, h.2.1.symm⟩
    · rw [h0 c] at h
      exact absurd h (by simp)
    · rw [h0 c] at h
      exact absurd h (by simp)
    · rw [h0 c] at h
      rw [h0 Colour.plain]
      exact Or.inr ⟨o, reports_lines o c k.Host k.toUser login stdin result forfile err h⟩

/-- C10, at the return of `KERB.Login` for a revoked account. -/
theorem login_two_renderings_witness :
    ("\x1b[31m[-] \x1b[0m dc01 CORP\\alice:pw = \x1b[31mUser's Account Locked\x1b[0m" = "" ∧
        "[-]  dc01 CORP\\alice:pw = User's Account Locked" = "") ∨
      ∃ o : Outcome,
        ((o.marker = "[+] " ∧ ∀ s, o.paint Colour.ansi s = Colour.ansi.GreenString s) ∨
          (o.marker = "[-] " ∧ ∀ s, o.paint Colour.ansi s = Colour.ansi.RedString s)) ∧
        "[-]  dc01 CORP\\alice:pw = User's Account Locked" =
          Sprintf o.marker "dc01" "CORP" "alice" "pw" o.label ∧
        "\x1b[31m[-] \x1b[0m dc01 CORP\\alice:pw = \x1b[31mUser's Account Locked\x1b[0m" =
          Sprintf (o.paint Colour.ansi o.marker) "dc01" "CORP" "alice" "pw"
            (o.paint Colour.ansi o.label) ∧
        (KERB.Login Colour.plain
          { Host := "dc01", Name := "alice", Password := "pw", Domain := "CORP", Enum := false }
          none (some "KDC_ERR_CLIENT_REVOKED") []).ret =
          Ret.ok "[-]  dc01 CORP\\alice:pw = User's Account Locked"
            "[-]  dc01 CORP\\alice:pw = User's Account Locked" (some "KDC_ERR_CLIENT_REVOKED") :=
  (login_two_renderings Colour.ansi []
    "\x1b[31m[-] \x1b[0m dc01 CORP\\alice:pw = \x1b[31mUser's Account Locked\x1b[0m"
    "[-]  dc01 CORP\\alice:pw = User's Account Locked" (some "KDC_ERR_CLIENT_REVOKED")).2
    { Host := "dc01", Name := "alice", Password := "pw", Domain := "CORP", Enum := false }
    none (some "KDC_ERR_CLIENT_REVOKED") (by decide)

/-! ## Lemmas on main and on the passes of the loop -/

set_option maxRecDepth 8000

theorem iteration_quiet (c : Colour) (opt : FlagOptions) (w : World)
    (hosts services : List String) (domain password : String) (lenServices : Int)
    (username : String) (i x : Nat) (stdin : List String)
    (h : attempts (iteration c opt w hosts services domain password lenServices username i x
      stdin).1 = []) :
    (iteration c opt w hosts services domain password lenServices username i x stdin).2 =
        Next.stop Exit.returned ∨
      (iteration c opt w hosts services domain password lenServices username i x stdin).2 =
        Next.stop Exit.panic := by
  rcases iteration_form c opt w hosts services domain password lenServices username i x stdin
    _ rfl with ⟨_, _⟩ | ⟨service, host, tail, _, hevs, _, _⟩
  · unfold iteration
    unfold iteration at h
    split
    · exact Or.inr rfl
    · split_ifs
      · exact Or.inl rfl
      · split
        · exact Or.inr rfl
        · exfalso
          rename_i heq1 hne _ _ heq2
          simp only [heq1, if_neg hne, heq2] at h
          revert h
          split
          · simp [attempts]
          · split <;> simp [attempts, attempts_append]
  · rw [hevs] at h
    simp [attempts] at h

theorem loop_fatal_attempts (c : Colour) (opt : FlagOptions) (w : World)
    (hosts services : List String) (domain password : String) (lenServices : Int)
    (usernames : List String) :
    ∀ (i x : Nat) (stdin : List String),
      (loop c opt w hosts services domain password lenServices usernames i x stdin).2 =
        Exit.fatal →
      attempts (loop c opt w hosts services domain password lenServices usernames i x stdin).1
        ≠ [] := by
  induction usernames with
  | nil => intro i x stdin h; simp [loop] at h
  | cons username usernames ih =>
    intro i x stdin h hempty
    have hq := iteration_quiet c opt w hosts services domain password lenServices username
      i x stdin
    rw [loop] at h hempty
    generalize iteration c opt w hosts services domain password lenServices username i x
      stdin = r at hq h hempty
    obtain ⟨evs, nx⟩ := r
    cases nx with
    | stop e =>
      simp only at h hempty hq
      rcases hq hempty with h1 | h1 <;> simp [h] at h1
    | next x1 stdin1 =>
      simp only at h hempty hq
      rw [attempts_append] at hempty
      rcases hq (List.append_eq_nil.mp hempty).1 with h1 | h1 <;> simp at h1


theorem readfile_readable (w : World) (hread : ∀ path, w.ReadFile path ≠ none)
    (inputFile : String) : ∃ lines, readfile w inputFile = some lines := by
  unfold readfile
  cases h : w.ReadFile inputFile with
  | none => exact absurd h (hread inputFile)
  | some output => exact ⟨_, rfl⟩

theorem main_eq_schedule (c : Colour) (opt : FlagOptions) (w : World)
    (hread : ∀ path, w.ReadFile path ≠ none) (hok : ¬ Misconfigured opt) :
    ∃ hosts password usernames,
      main c opt w =
        schedule c opt w hosts (selectServices opt) (w.ToUpper opt.domain) password usernames := by
  obtain ⟨fileHosts, hH⟩ := readfile_readable w hread opt.hostfile
  obtain ⟨fileUsers, hU⟩ := readfile_readable w hread opt.userfile
  simp only [Misconfigured, not_or, not_and] at hok
  obtain ⟨h1, h2, h3, h4, h5⟩ := hok
  have a1 : ¬ (opt.kerb = true ∧ opt.ldap = true) := fun h => h1 h.1 h.2
  have a2 : ¬ (opt.enum = true ∧ opt.ldap = true) := fun h => (h2 h.1).2 h.2
  have a3 : ¬ (opt.enum = true ∧ opt.kerb = true) := fun h => (h2 h.1).1 h.2
  have a4 : ¬ (opt.host = "" ∧ opt.hostfile = "") := fun h => h3 h.1 h.2
  have a5 : ¬ (opt.user = "" ∧ opt.userfile = "") := fun h => h4 h.1 h.2
  have a6 : ¬ (opt.pass = "" ∧ opt.enum = false) := fun h => h5 h.1 h.2
  unfold main
  simp only [if_neg a1, if_neg a2, if_neg a3, if_neg a4, if_neg a5, if_neg a6]
  by_cases hf : opt.hostfile ≠ "" <;> by_cases hu : opt.userfile ≠ ""
  · simp only [if_pos hf, if_pos hu, hH, hU]
    exact ⟨_, _, _, rfl⟩
  · simp only [if_pos hf, if_neg hu, hH]
    exact ⟨_, _, _, rfl⟩
  · simp only [if_neg hf, if_pos hu, hU]
    exact ⟨_, _, _, rfl⟩
  · simp only [if_neg hf, if_neg hu]
    exact ⟨_, _, _, rfl⟩

theorem absent_of_only (err frag g : String) (honly : ∀ f ∈ kerbFragments, Contains err f = true → f = frag)
    (hg : g ∈ kerbFragments) (hne : g ≠ frag) : Contains err g = false := by
  cases h : Contains err g
  · rfl
  · exact absurd (honly g hg h) hne

theorem pickHost_eq (opt : FlagOptions) (w : World) (hosts : List String) (i : Nat) :
    pickHost opt w hosts i =
      match hostIndex opt w hosts i with
      | Except.error msg => Except.error msg
      | Except.ok n =>
        match hosts[n.toNat]? with
        | none => Except.error "index out of range"
        | some host => Except.ok host := by
  unfold pickHost hostIndex
  by_cases hf : opt.hostfile ≠ ""
  · by_cases h0 : (hosts.length : Int) - 1 = 0
    · simp only [if_pos hf, if_pos h0, if_pos (And.intro hf h0)]
    · simp only [if_pos hf, if_neg h0, if_neg (fun h : opt.hostfile ≠ "" ∧ _ => h0 h.2)]
  · simp only [if_neg hf, if_neg (fun h : opt.hostfile ≠ "" ∧ _ => hf h.1)]

theorem firstMatch_none (err : String) (table : List (String × Outcome))
    (h : ∀ p ∈ table, Contains err p.1 = false) : firstMatch err table = none := by
  induction table with
  | nil => rfl
  | cons p table ih =>
    obtain ⟨frag, o⟩ := p
    have h1 : Contains err frag = false := h (frag, o) (List.mem_cons_self _ _)
    simp only [firstMatch, h1, Bool.false_eq_true, if_false]
    exact ih fun q hq => h q (List.mem_cons_of_mem _ hq)

theorem kerb_login_modes_agree (c : Colour) (k : KERB) (stdin : List String) (err : String)
    (hnone : firstMatch err enumSpecific = none)
    (hskew : Contains err "(37) KRB_AP_ERR_SKEW" = true →
      Contains err "KDC_ERR_CLIENT_REVOKED" = true →
      Contains err "(37) KRB_AP_ERR_SKEW Clock skew" = true) :
    KERB.Login c { k with Enum := true } none (some err) stdin =
      KERB.Login c { k with Enum := false } none (some err) stdin := by
  by_cases hnet : Contains err kdcUnreachable = true
  · simp only [KERB.Login, hnet, if_true]
  · by_cases hlong : Contains err "(37) KRB_AP_ERR_SKEW Clock skew" = true
    · have hshort := skew_short_of_long err hlong
      simp only [KERB.Login, hnet, if_false, Bool.false_eq_true, if_true, KERB.enumTable,
        KERB.normalTable, hlong, hshort]
    · have hlong1 : Contains err "(37) KRB_AP_ERR_SKEW Clock skew" = false := by
        simpa using hlong
      by_cases hrev : Contains err "KDC_ERR_CLIENT_REVOKED" = true
      · have hshort : Contains err "(37) KRB_AP_ERR_SKEW" = false := by
          cases hs : Contains err "(37) KRB_AP_ERR_SKEW"
          · rfl
          · exact absurd (hskew hs hrev) hlong
        simp only [KERB.Login, hnet, if_false, Bool.false_eq_true, if_true, KERB.enumTable,
          KERB.normalTable, hlong1, hshort, hrev]
      · have hrev1 : Contains err "KDC_ERR_CLIENT_REVOKED" = false := by simpa using hrev
        simp only [KERB.Login, hnet, if_false, Bool.false_eq_true, if_true,
          enumTable_of_firstMatch c _ stdin err hlong1 hrev1, hnone, Option.map_none']
        rfl

theorem iteration_attempts (c : Colour) (opt : FlagOptions) (w : World)
    (hosts services : List String) (domain password : String) (lenServices : Int)
    (username : String) (i x : Nat) (stdin : List String) :
    attempts (iteration c opt w hosts services domain password lenServices username i x
        stdin).1 = [] ∨
      ∃ service, services[x]? = some service ∧
        attempts (iteration c opt w hosts services domain password lenServices username i x
          stdin).1 = [(service, username)] := by
  rcases iteration_form c opt w hosts services domain password lenServices username i x stdin
    _ rfl with ⟨h, _⟩ | ⟨service, host, tail, hs, hevs, ht, _⟩
  · exact Or.inl h
  · refine Or.inr ⟨service, hs, ?_⟩
    rw [hevs]
    show (service, username) :: attempts tail = _
    rw [ht]

theorem iteration_next_index (c : Colour) (opt : FlagOptions) (w : World)
    (hosts services : List String) (domain password : String) (lenServices : Int)
    (username : String) (i x : Nat) (stdin : List String) (x1 : Nat) (stdin1 : List String)
    (h : (iteration c opt w hosts services domain password lenServices username i x stdin).2 =
      Next.next x1 stdin1) :
    x1 = x ∨ x1 = if lenServices = (x : Int) then 0 else x + 1 := by
  rcases iteration_form c opt w hosts services domain password lenServices username i x stdin
    _ rfl with ⟨_, e, he⟩ | ⟨_, _, _, _, _, _, ⟨e, he⟩ | ⟨_, s, hs⟩ | ⟨_, s, hs⟩⟩
  · rw [he] at h; exact absurd h (by simp)
  · rw [he] at h; exact absurd h (by simp)
  · rw [hs] at h
    simp only [Next.next.injEq] at h
    exact Or.inl h.1.symm
  · rw [hs] at h
    simp only [Next.next.injEq] at h
    exact Or.inr h.1.symm

theorem rotationIndices_lt (c : Colour) (opt : FlagOptions) (w : World)
    (hosts services : List String) (domain password : String) (usernames : List String) :
    ∀ (i x : Nat) (stdin : List String), x < services.length →
      ∀ y ∈ rotationIndices c opt w hosts services domain password
        ((services.length : Int) - 1) usernames i x stdin, y < services.length := by
  induction usernames with
  | nil => intro i x stdin _ y hy; simp [rotationIndices] at hy
  | cons username usernames ih =>
    intro i x stdin hx y hy
    have hnext := iteration_next_index c opt w hosts services domain password
      ((services.length : Int) - 1) username i x stdin
    rw [rotationIndices] at hy
    generalize iteration c opt w hosts services domain password
      ((services.length : Int) - 1) username i x stdin = r at hnext hy
    obtain ⟨evs, nx⟩ := r
    cases nx with
    | stop e =>
      simp only [List.mem_singleton] at hy
      omega
    | next x1 stdin1 =>
      simp only [List.mem_cons] at hy
      rcases hy with hy | hy
      · omega
      · have hx1 : x1 < services.length := by
          rcases hnext x1 stdin1 rfl with h | h
          · omega
          · rw [h]
            split_ifs <;> omega
        exact ih (i + 1) x1 stdin1 hx1 y hy

theorem selectServices_valid (opt : FlagOptions) :
    selectServices opt = ["KERB", "LDAP"] ∨ selectServices opt = ["KERB"] ∨
      selectServices opt = ["LDAP"] := by
  unfold selectServices
  cases opt.enum <;> cases opt.kerb <;> cases opt.ldap <;> simp

theorem mem_console (evs : List Event) (h : evs.all Event.console = true) :
    Event.print lockoutPrompt ∉ evs := by
  intro hm
  have := List.all_eq_true.mp h _ hm
  simp [Event.console] at this

theorem afterLogin_prompted (opt : FlagOptions) (wo : WriteOutcome) (lenServices : Int)
    (x : Nat) (result forfile : String) (stdin : List String)
    (h : Event.print lockoutPrompt ∈ (afterLogin opt wo lenServices x result forfile stdin).1) :
    appended (afterLogin opt wo lenServices x result forfile stdin).1 = [] ∧
      ((afterLogin opt wo lenServices x result forfile stdin).2 =
          Next.next x (ReadString stdin).2 ∨
        (afterLogin opt wo lenServices x result forfile stdin).2 = Next.stop Exit.fatal) := by
  by_cases hc : Contains result "User's Account Locked" = true ∧ opt.enum ≠ true
  · by_cases hy : Contains (ReadString stdin).1 "y" = true
    · have e : afterLogin opt wo lenServices x result forfile stdin =
          ([Event.println result, Event.print lockoutPrompt,
            Event.readLine (ReadString stdin).1], Next.next x (ReadString stdin).2) := by
        simp only [afterLogin, if_pos hc, if_pos hy]
      rw [e]
      exact ⟨rfl, Or.inl rfl⟩
    · have e : afterLogin opt wo lenServices x result forfile stdin =
          ([Event.println result, Event.print lockoutPrompt,
            Event.readLine (ReadString stdin).1, Event.logFatal "Shutting down"],
            Next.stop Exit.fatal) := by
        simp only [afterLogin, if_pos hc, if_neg hy]
        rfl
      rw [e]
      exact ⟨rfl, Or.inr rfl⟩
  · exfalso
    rw [afterLogin_unlocked opt wo lenServices x result forfile stdin hc] at h
    by_cases ho : opt.outFile ≠ ""
    · rw [if_pos ho] at h
      cases wo <;> simp [writefile] at h
    · rw [if_neg ho] at h
      simp at h

theorem iteration_prompted (c : Colour) (opt : FlagOptions) (w : World)
    (hosts services : List String) (domain password : String) (lenServices : Int)
    (username : String) (i x : Nat) (stdin : List String)
    (h : Event.print lockoutPrompt ∈
      (iteration c opt w hosts services domain password lenServices username i x stdin).1) :
    appended (iteration c opt w hosts services domain password lenServices username i x
        stdin).1 = [] ∧
      ∀ x1 stdin1,
        (iteration c opt w hosts services domain password lenServices username i x stdin).2 =
          Next.next x1 stdin1 → x1 = x := by
  unfold iteration at h ⊢
  split at h
  · simp at h
  · split_ifs at h with h2
    · simp at h
    · rw [if_neg h2]
      split at h
      · simp at h
      · simp only [] at h ⊢
        split at h
        · simp at h
        · next auth _ =>
          have hc := login_console c auth (w.reply i) stdin
          have hno := mem_console _ hc
          split at h
          · simp [hno] at h
          · simp [hno] at h
          · next result forfile err hret =>
            simp only [hret]
            have hin : Event.print lockoutPrompt ∈
                (afterLogin opt (w.write i) lenServices x result forfile
                  (Authenticator.Login c auth (w.reply i) stdin).stdin).1 := by
              simpa [hno] using h
            obtain ⟨ha, hb⟩ := afterLogin_prompted opt (w.write i) lenServices x result forfile _ hin
            constructor
            · rw [appended_append, appended_append, appended_console _ hc]
              exact ha
            · intro x1 stdin1 hnx
              rcases hb with hb | hb
              · rw [hb] at hnx
                simp only [Next.next.injEq] at hnx
                exact hnx.1.symm
              · rw [hb] at hnx
                exact absurd hnx (by simp)


/-! ## Configuration -/

/-- C11: with readable input files, `main` ends with a `log.Fatal` as its only event, before
any attempt, when the flags are misconfigured (Kerberos-only with LDAP-only, enumeration
with either restriction, no host and no host file, no user and no user file, no password
without enumeration); and when they are not, `main` does not end fatally without having
made an attempt. -/
theorem misconfiguration_fatal (c : Colour) (opt : FlagOptions) (w : World)
    (hread : ∀ path, w.ReadFile path ≠ none) :
    (Misconfigured opt → ∃ msg, main c opt w = ([Event.logFatal msg], Exit.fatal)) ∧
      (¬ Misconfigured opt →
        ¬ ((main c opt w).2 = Exit.fatal ∧ attempts (main c opt w).1 = [])) := by
  constructor
  · intro hm
    by_cases a1 : opt.kerb = true ∧ opt.ldap = true
    · exact ⟨"Error: Please choose one or the other", by simp only [main, if_pos a1]⟩
    by_cases a2 : opt.enum = true ∧ opt.ldap = true
    · exact ⟨"Error: Can't use LDAP only option with Enumeration option", by
        simp only [main, if_neg a1, if_pos a2]⟩
    by_cases a3 : opt.enum = true ∧ opt.kerb = true
    · exact ⟨"Error: Can't use Kerberos only option with Enumeration option", by
        simp only [main, if_neg a1, if_neg a2, if_pos a3]⟩
    by_cases a4 : opt.host = "" ∧ opt.hostfile = ""
    · exact ⟨"Error: Please provide a host or list of hosts", by
        simp only [main, if_neg a1, if_neg a2, if_neg a3, if_pos a4]⟩
    obtain ⟨fileHosts, hH⟩ := readfile_readable w hread opt.hostfile
    have hhosts : ∃ fh, (if opt.hostfile ≠ "" then readfile w opt.hostfile else some []) =
        some fh := by
      by_cases hf : opt.hostfile ≠ ""
      · exact ⟨_, by rw [if_pos hf, hH]⟩
      · exact ⟨_, by rw [if_neg hf]⟩
    obtain ⟨fh, hfh⟩ := hhosts
    by_cases a5 : opt.user = "" ∧ opt.userfile = ""
    · exact ⟨"Error: Please provide an username or list of usernames", by
        simp only [main, if_neg a1, if_neg a2, if_neg a3, if_neg a4, hfh, if_pos a5]⟩
    by_cases a6 : opt.pass = "" ∧ opt.enum = false
    · exact ⟨"Error: Please provide a password or select the enumeration option", by
        simp only [main, if_neg a1, if_neg a2, if_neg a3, if_neg a4, hfh, if_neg a5, if_pos a6]⟩
    exfalso
    rcases hm with h | ⟨he, h | h⟩ | h | h | h
    · exact a1 h
    · exact a3 ⟨he, h⟩
    · exact a2 ⟨he, h⟩
    · exact a4 h
    · exact a5 h
    · exact a6 h
  · intro hok ⟨hf, ha⟩
    obtain ⟨hosts, password, usernames, hmain⟩ := main_eq_schedule c opt w hread hok
    rw [hmain] at hf ha
    exact loop_fatal_attempts c opt w hosts (selectServices opt) (w.ToUpper opt.domain) password
      _ usernames 0 0 w.stdin hf ha

/-- C11, at the flags `-H dc01 -U alice -D corp` without password and without
enumeration. -/
theorem misconfiguration_fatal_witness :
    ∃ msg, main Colour.plain
      { host := "dc01", hostfile := "", user := "alice", userfile := "", domain := "corp",
        pass := "", outFile := "", enum := false, kerb := false, ldap := false }
      readable = ([Event.logFatal msg], Exit.fatal) :=
  (misconfiguration_fatal Colour.plain
    { host := "dc01", hostfile := "", user := "alice", userfile := "", domain := "corp",
      pass := "", outFile := "", enum := false, kerb := false, ldap := false }
    readable (fun _ => Option.some_ne_none _)).1
    (Or.inr (Or.inr (Or.inr (Or.inr ⟨rfl, rfl⟩))))

/-! ## The enumeration table -/

/-- C12: in enumeration mode, for an error text in which exactly one of the fragments that
`KERB.Login` looks for occurs: the AS-REP decrypt fragment ending in
`integrity verification failed` gives `UserExistsNoPreauthRequired`, the one ending in
`integrity checksum incorrect` gives the DES-only variant, the `(12) KDC_ERR_POLICY`
fragment gives `UserExistsSmartcardRequired`, the `(14) KDC_ERR_ETYPE_NOSUPP` fragment
gives `UserExists`; all four are reported with the marker `[+] `. -/
theorem kerb_enum_single_fragment (c : Colour) (k : KERB) (stdin : List String) (err frag : String)
    (hk : k.Enum = true) (hfrag : Contains err frag = true)
    (honly : ∀ g ∈ kerbFragments, Contains err g = true → g = frag) :
    (frag = decryptVerification →
        KERB.Login c k none (some err) stdin =
          reports Outcome.UserExistsNoPreauthRequired c k.Host k.toUser (some err) stdin) ∧
      (frag = decryptChecksum →
        KERB.Login c k none (some err) stdin =
          reports Outcome.UserExistsDESNoPreauthRequired c k.Host k.toUser (some err) stdin) ∧
      (frag = kdcPolicy →
        KERB.Login c k none (some err) stdin =
          reports Outcome.UserExistsSmartcardRequired c k.Host k.toUser (some err) stdin) ∧
      (frag = etypeNosupp →
        KERB.Login c k none (some err) stdin =
          reports Outcome.UserExists c k.Host k.toUser (some err) stdin) ∧
      Outcome.UserExistsNoPreauthRequired.marker = "[+] " ∧
      Outcome.UserExistsDESNoPreauthRequired.marker = "[+] " ∧
      Outcome.UserExistsSmartcardRequired.marker = "[+] " ∧
      Outcome.UserExists.marker = "[+] " := by
  have habs : ∀ g ∈ kerbFragments, g ≠ frag → Contains err g = false :=
    fun g hg hne => absent_of_only err frag g honly hg hne
  refine ⟨fun h => ?_, fun h => ?_, fun h => ?_, fun h => ?_, rfl, rfl, rfl, rfl⟩
  · subst h
    have h0 := habs kdcUnreachable (by decide) (by decide)
    have h1 := habs "(37) KRB_AP_ERR_SKEW Clock skew" (by decide) (by decide)
    have h2 := habs "KDC_ERR_CLIENT_REVOKED" (by decide) (by decide)
    have h3 := habs "KDC_ERR_C_PRINCIPAL_UNKNOWN" (by decide) (by decide)
    have h4 := habs "KDC_ERR_PREAUTH_FAILED" (by decide) (by decide)
    simp only [KERB.Login, KERB.enumTable, hk, h0, h1, h2, h3, h4, hfrag]
    rfl
  · subst h
    have h0 := habs kdcUnreachable (by decide) (by decide)
    have h1 := habs "(37) KRB_AP_ERR_SKEW Clock skew" (by decide) (by decide)
    have h2 := habs "KDC_ERR_CLIENT_REVOKED" (by decide) (by decide)
    have h3 := habs "KDC_ERR_C_PRINCIPAL_UNKNOWN" (by decide) (by decide)
    have h4 := habs "KDC_ERR_PREAUTH_FAILED" (by decide) (by decide)
    have h5 := habs decryptVerification (by decide) (by decide)
    have h6 := habs kdcPolicy (by decide) (by decide)
    have h7 := habs etypeNosupp (by decide) (by decide)
    simp only [KERB.Login, KERB.enumTable, hk, h0, h1, h2, h3, h4, h5, h6, h7, hfrag]
    rfl
  · subst h
    have h0 := habs kdcUnreachable (by decide) (by decide)
    have h1 := habs "(37) KRB_AP_ERR_SKEW Clock skew" (by decide) (by decide)
    have h2 := habs "KDC_ERR_CLIENT_REVOKED" (by decide) (by decide)
    have h3 := habs "KDC_ERR_C_PRINCIPAL_UNKNOWN" (by decide) (by decide)
    have h4 := habs "KDC_ERR_PREAUTH_FAILED" (by decide) (by decide)
    have h5 := habs decryptVerification (by decide) (by decide)
    simp only [KERB.Login, KERB.enumTable, hk, h0, h1, h2, h3, h4, h5, hfrag]
    rfl
  · subst h
    have h0 := habs kdcUnreachable (by decide) (by decide)
    have h1 := habs "(37) KRB_AP_ERR_SKEW Clock skew" (by decide) (by decide)
    have h2 := habs "KDC_ERR_CLIENT_REVOKED" (by decide) (by decide)
    have h3 := habs "KDC_ERR_C_PRINCIPAL_UNKNOWN" (by decide) (by decide)
    have h4 := habs "KDC_ERR_PREAUTH_FAILED" (by decide) (by decide)
    have h5 := habs decryptVerification (by decide) (by decide)
    have h6 := habs kdcPolicy (by decide) (by decide)
    simp only [KERB.Login, KERB.enumTable, hk, h0, h1, h2, h3, h4, h5, h6, hfrag]
    rfl

/-- C12, at the error text of a KDC policy rejection. -/
theorem kerb_enum_single_fragment_witness :
    KERB.Login Colour.plain
        { Host := "dc01", Name := "alice", Password := " ", Domain := "CORP", Enum := true } none
        (some
          "[Root cause: KDC_Error] KDC_Error: AS Exchange Error: kerberos error response from KDC: KRB Error: (12) KDC_ERR_POLICY KDC policy rejects request")
        [] =
      ⟨[], [], Ret.ok "[+]  dc01 CORP\\alice:  = User Exist - But Smartcard is Required"
        "[+]  dc01 CORP\\alice:  = User Exist - But Smartcard is Required"
        (some
          "[Root cause: KDC_Error] KDC_Error: AS Exchange Error: kerberos error response from KDC: KRB Error: (12) KDC_ERR_POLICY KDC policy rejects request")⟩ :=
  (kerb_enum_single_fragment Colour.plain
    { Host := "dc01", Name := "alice", Password := " ", Domain := "CORP", Enum := true } []
    "[Root cause: KDC_Error] KDC_Error: AS Exchange Error: kerberos error response from KDC: KRB Error: (12) KDC_ERR_POLICY KDC policy rejects request"
    kdcPolicy rfl (by decide) (by decide)).2.2.1 rfl

/-! ## The choice of the host -/

/-- C13: when a host file is given, the index is `r mod (len(hosts) - 1)` for the random
draw `r`; for a host list of length at least 2 it is at most `len(hosts) - 2`, so it is in
bounds and never the index of the last host; for a host list of length 1 the computation
panics with a division by zero, which ends the pass and the run. Without a host file the
index is 0 in every pass. -/
theorem host_index (c : Colour) (opt : FlagOptions) (w : World) (hosts services : List String)
    (domain password : String) (lenServices : Int) (username : String) (i x : Nat)
    (stdin : List String) :
    (opt.hostfile ≠ "" → 2 ≤ hosts.length →
        hostIndex opt w hosts i = Except.ok ((w.rand i % (hosts.length - 1) : Nat) : Int) ∧
        w.rand i % (hosts.length - 1) ≤ hosts.length - 2 ∧
        w.rand i % (hosts.length - 1) ≠ hosts.length - 1 ∧
        ∃ host, hosts[w.rand i % (hosts.length - 1)]? = some host ∧
          pickHost opt w hosts i = Except.ok host) ∧
      (opt.hostfile ≠ "" → hosts.length = 1 →
        hostIndex opt w hosts i = Except.error "integer divide by zero" ∧
        pickHost opt w hosts i = Except.error "integer divide by zero" ∧
        iteration c opt w hosts services domain password lenServices username i x stdin =
          ([Event.panic "integer divide by zero"], Next.stop Exit.panic)) ∧
      (opt.hostfile = "" →
        hostIndex opt w hosts i = Except.ok 0 ∧
        ∀ host, hosts[0]? = some host → pickHost opt w hosts i = Except.ok host) := by
  refine ⟨fun hf hlen => ?_, fun hf hlen => ?_, fun hf => ?_⟩
  · have h0 : ¬ ((hosts.length : Int) - 1 = 0) := by omega
    have hidx : hostIndex opt w hosts i =
        Except.ok ((w.rand i % (hosts.length - 1) : Nat) : Int) := by
      simp only [hostIndex, if_pos hf, if_neg h0]
      congr 1
      have : ((hosts.length : Int) - 1) = ((hosts.length - 1 : Nat) : Int) := by omega
      rw [this, Int.ofNat_tmod]
    have hlt : w.rand i % (hosts.length - 1) < hosts.length - 1 :=
      Nat.mod_lt _ (by omega)
    have hin : w.rand i % (hosts.length - 1) < hosts.length := by omega
    refine ⟨hidx, by omega, by omega, hosts[w.rand i % (hosts.length - 1)], ?_, ?_⟩
    · exact List.getElem?_eq_getElem hin
    · rw [pickHost_eq, hidx]
      simp only [Int.toNat_ofNat, List.getElem?_eq_getElem hin]
  · have h0 : (hosts.length : Int) - 1 = 0 := by omega
    have hidx : hostIndex opt w hosts i = Except.error "integer divide by zero" := by
      simp only [hostIndex, if_pos hf, if_pos h0]
    have hpick : pickHost opt w hosts i = Except.error "integer divide by zero" := by
      rw [pickHost_eq, hidx]
    exact ⟨hidx, hpick, by simp only [iteration, hpick]⟩
  · have hidx : hostIndex opt w hosts i = Except.ok 0 := by
      simp only [hostIndex, hf, ne_eq, not_true_eq_false, if_false]
    refine ⟨hidx, fun host hh => ?_⟩
    rw [pickHost_eq, hidx]
    simp only [Int.toNat_zero, hh]

/-- C13, at a host list of three hosts and the random draw 5. -/
theorem host_index_witness :
    hostIndex { bothServices with host := "", hostfile := "hosts.txt" } readable
        ["dc01", "dc02", "dc03"] 0 = Except.ok 1 ∧
      pickHost { bothServices with host := "", hostfile := "hosts.txt" } readable
        ["dc01"] 0 = Except.error "integer divide by zero" :=
  ⟨((host_index Colour.plain { bothServices with host := "", hostfile := "hosts.txt" } readable
      ["dc01", "dc02", "dc03"] ["KERB", "LDAP"] "CORP" "pw" 1 "alice" 0 0 []).1
      (by decide) (by decide)).1,
    ((host_index Colour.plain { bothServices with host := "", hostfile := "hosts.txt" } readable
      ["dc01"] ["KERB", "LDAP"] "CORP" "pw" 1 "alice" 0 0 []).2.1 (by decide) rfl).2.1⟩

/-! ## Enumeration mode against normal mode -/

/-- C14 (as stated, refuted): the error text `KRB Error: (37) KRB_AP_ERR_SKEW
KDC_ERR_CLIENT_REVOKED` contains none of the six fragments special to enumeration; in
enumeration mode `KERB.Login` reports it as `User's Account Locked`, in normal mode it
ends the process. -/
theorem kerb_modes_differ_on_short_skew :
    (∀ p ∈ enumSpecific,
        Contains "KRB Error: (37) KRB_AP_ERR_SKEW KDC_ERR_CLIENT_REVOKED" p.1 = false) ∧
      KERB.Login Colour.plain
        { Host := "dc01", Name := "alice", Password := "pw", Domain := "CORP", Enum := true }
        none (some "KRB Error: (37) KRB_AP_ERR_SKEW KDC_ERR_CLIENT_REVOKED") [] =
      ⟨[], [], Ret.ok "[-]  dc01 CORP\\alice:pw = User's Account Locked"
        "[-]  dc01 CORP\\alice:pw = User's Account Locked"
        (some "KRB Error: (37) KRB_AP_ERR_SKEW KDC_ERR_CLIENT_REVOKED")⟩ ∧
      (KERB.Login Colour.plain
        { Host := "dc01", Name := "alice", Password := "pw", Domain := "CORP", Enum := false }
        none (some "KRB Error: (37) KRB_AP_ERR_SKEW KDC_ERR_CLIENT_REVOKED") []).ret =
      Ret.fatal := by
  decide

/-- C14 (amended): for every Kerberos error text that contains none of the six fragments
special to enumeration and in which `(37) KRB_AP_ERR_SKEW`, when it occurs together with
`KDC_ERR_CLIENT_REVOKED`, occurs in the longer form `(37) KRB_AP_ERR_SKEW Clock skew`,
`KERB.Login` does the same in enumeration mode as in normal mode; and an error text that
contains none of the fragments `KERB.Login` looks for is reported as `Failed` in both
modes. -/
theorem kerb_enum_falls_back (c : Colour) (k : KERB) (stdin : List String) (err : String) :
    ((∀ p ∈ enumSpecific, Contains err p.1 = false) →
        (Contains err "(37) KRB_AP_ERR_SKEW" = true →
          Contains err "KDC_ERR_CLIENT_REVOKED" = true →
          Contains err "(37) KRB_AP_ERR_SKEW Clock skew" = true) →
        KERB.Login c { k with Enum := true } none (some err) stdin =
          KERB.Login c { k with Enum := false } none (some err) stdin) ∧
      ((∀ g ∈ kerbFragments, Contains err g = false) →
        KERB.Login c { k with Enum := true } none (some err) stdin =
          reports Outcome.Failed c k.Host k.toUser (some err) stdin ∧
        KERB.Login c { k with Enum := false } none (some err) stdin =
          reports Outcome.Failed c k.Host k.toUser (some err) stdin) := by
  constructor
  · intro hnone hskew
    exact kerb_login_modes_agree c k stdin err (firstMatch_none err _ hnone) hskew
  · intro hall
    have hnet := hall kdcUnreachable (by decide)
    have hshort := hall "(37) KRB_AP_ERR_SKEW" (by decide)
    have hrev := hall "KDC_ERR_CLIENT_REVOKED" (by decide)
    have hnormal : KERB.Login c { k with Enum := false } none (some err) stdin =
        reports Outcome.Failed c k.Host k.toUser (some err) stdin := by
      simp only [KERB.Login, KERB.normalTable, hnet, hshort, hrev]
      rfl
    have hnone : firstMatch err enumSpecific = none := by
      apply firstMatch_none
      intro p hp
      have hmem : p.1 ∈ kerbFragments := by
        simp only [enumSpecific, List.mem_cons, List.mem_singleton, List.not_mem_nil,
          or_false] at hp
        rcases hp with h | h | h | h | h | h <;> subst h <;> decide
      exact hall p.1 hmem
    refine ⟨?_, hnormal⟩
    rw [kerb_login_modes_agree c k stdin err hnone (fun h => by simp [hshort] at h)]
    exact hnormal

/-- C14 (amended), at the error text of a revoked account. -/
theorem kerb_enum_falls_back_witness :
    KERB.Login Colour.plain
        { Host := "dc01", Name := "alice", Password := "pw", Domain := "CORP", Enum := true }
        none (some "KRB Error: (18) KDC_ERR_CLIENT_REVOKED Clients credentials have been revoked")
        [] =
      KERB.Login Colour.plain
        { Host := "dc01", Name := "alice", Password := "pw", Domain := "CORP", Enum := false }
        none (some "KRB Error: (18) KDC_ERR_CLIENT_REVOKED Clients credentials have been revoked")
        [] :=
  (kerb_enum_falls_back Colour.plain
    { Host := "dc01", Name := "alice", Password := "pw", Domain := "CORP", Enum := false } []
    "KRB Error: (18) KDC_ERR_CLIENT_REVOKED Clients credentials have been revoked").1
    (by decide) (by decide)

/-! ## The lockout prompt and the rotation index -/

/-- C15 (the code at the failing input): with the username `User's Account Locked`, an
attempt that Kerberos accepts returns a `Success` line, yet the loop raises the lockout
prompt for it; the operator answers `n` and the run ends before `bob` is tried. -/
theorem prompt_on_success :
    Event.loginReturned "[+]  dc01 CORP\\User's Account Locked:pw = Success"
        "[+]  dc01 CORP\\User's Account Locked:pw = Success" none ∈
        (main Colour.plain bothServices labelAsUsername).1 ∧
      lockoutPrompts (main Colour.plain bothServices labelAsUsername).1 = 1 ∧
      attempts (main Colour.plain bothServices labelAsUsername).1 =
        [("KERB", "User's Account Locked")] ∧
      (main Colour.plain bothServices labelAsUsername).2 = Exit.fatal := by
  decide

/-- C16: every flag configuration selects one of the service lists `KERB, LDAP`, `KERB`,
`LDAP`; for each of these lists, in every run of the loop, the rotation index at the start
of every pass is smaller than the length of the list, so `services[x]` exists and `setup`
returns a Kerberos or an LDAP authenticator for it. -/
theorem rotation_in_bounds (c : Colour) (opt : FlagOptions) (w : World)
    (hosts services : List String) (domain password : String) (usernames : List String)
    (hs : services = ["KERB", "LDAP"] ∨ services = ["KERB"] ∨ services = ["LDAP"]) :
    (selectServices opt = ["KERB", "LDAP"] ∨ selectServices opt = ["KERB"] ∨
        selectServices opt = ["LDAP"]) ∧
      ∀ x ∈ rotationIndices c opt w hosts services domain password
          ((services.length : Int) - 1) usernames 0 0 w.stdin,
        x < services.length ∧
        ∃ service, services[x]? = some service ∧
          ∀ host username,
            (∃ k, setup service host domain username password opt.enum =
              some (Authenticator.kerb k)) ∨
            (∃ l, setup service host domain username password opt.enum =
              some (Authenticator.ldap l)) := by
  refine ⟨selectServices_valid opt, fun x hx => ?_⟩
  have hpos : 0 < services.length := by
    rcases hs with h | h | h <;> subst h <;> decide
  have hlt := rotationIndices_lt c opt w hosts services domain password usernames 0 0 w.stdin
    hpos x hx
  refine ⟨hlt, services[x], List.getElem?_eq_getElem hlt, fun host username => ?_⟩
  have hmem : ∀ s ∈ services, s = "KERB" ∨ s = "LDAP" := by
    rcases hs with h | h | h <;> subst h <;> simp
  rcases hmem _ (List.getElem_mem hlt) with h | h
  · exact Or.inl ⟨_, by rw [h]; rfl⟩
  · exact Or.inr ⟨_, by rw [h]; rfl⟩

/-- C16, at a run over three usernames with both services. -/
theorem rotation_in_bounds_witness :
    rotationIndices Colour.plain bothServices allFine ["dc01"] ["KERB", "LDAP"] "CORP" "pw" 1
        ["alice", "bob", "carol"] 0 0 [] = [0, 1, 0] ∧
      ∀ x ∈ rotationIndices Colour.plain bothServices allFine ["dc01"] ["KERB", "LDAP"] "CORP"
          "pw" 1 ["alice", "bob", "carol"] 0 0 [],
        x < 2 ∧
        ∃ service, ["KERB", "LDAP"][x]? = some service ∧
          ∀ host username,
            (∃ k, setup service host "CORP" username "pw" false =
              some (Authenticator.kerb k)) ∨
            (∃ l, setup service host "CORP" username "pw" false =
              some (Authenticator.ldap l)) :=
  ⟨by decide,
    (rotation_in_bounds Colour.plain bothServices allFine ["dc01"] ["KERB", "LDAP"] "CORP" "pw"
      ["alice", "bob", "carol"] (Or.inl rfl)).2⟩

/-- C17: a pass of the loop that raises the lockout prompt and goes on to the next username
appends nothing to the output file and leaves the rotation index as it was: the loop
continues with the usernames that follow at the same index, and the attempt of the next
pass, when it makes one, uses the same service as the locked one. -/
theorem lockout_continue_frame (c : Colour) (opt : FlagOptions) (w : World)
    (hosts services : List String) (domain password : String) (lenServices : Int)
    (username : String) (usernames : List String) (i x : Nat) (stdin : List String)
    (x1 : Nat) (stdin1 : List String)
    (hprompt : Event.print lockoutPrompt ∈
      (iteration c opt w hosts services domain password lenServices username i x stdin).1)
    (hnext : (iteration c opt w hosts services domain password lenServices username i x
      stdin).2 = Next.next x1 stdin1) :
    x1 = x ∧
      appended (iteration c opt w hosts services domain password lenServices username i x
        stdin).1 = [] ∧
      loop c opt w hosts services domain password lenServices (username :: usernames) i x stdin =
        ((iteration c opt w hosts services domain password lenServices username i x stdin).1 ++
          (loop c opt w hosts services domain password lenServices usernames (i + 1) x
            stdin1).1,
         (loop c opt w hosts services domain password lenServices usernames (i + 1) x
            stdin1).2) ∧
      ∃ service,
        attempts (iteration c opt w hosts services domain password lenServices username i x
          stdin).1 = [(service, username)] ∧
        ∀ following,
          attempts (iteration c opt w hosts services domain password lenServices following
              (i + 1) x1 stdin1).1 = [(service, following)] ∨
            attempts (iteration c opt w hosts services domain password lenServices following
              (i + 1) x1 stdin1).1 = [] := by
  obtain ⟨happ, hx⟩ := iteration_prompted c opt w hosts services domain password lenServices
    username i x stdin hprompt
  have hx1 : x1 = x := hx x1 stdin1 hnext
  subst hx1
  refine ⟨rfl, happ, ?_, ?_⟩
  · rw [loop]
    generalize iteration c opt w hosts services domain password lenServices username i x1
      stdin = r at hnext
    obtain ⟨evs, nx⟩ := r
    simp only at hnext
    subst hnext
    rfl
  · rcases iteration_attempts c opt w hosts services domain password lenServices username i x1
      stdin with h | ⟨service, hs, h⟩
    · exfalso
      rcases iteration_quiet c opt w hosts services domain password lenServices username i x1
        stdin h with h1 | h1 <;> rw [h1] at hnext <;> simp at hnext
    · refine ⟨service, h, fun following => ?_⟩
      rcases iteration_attempts c opt w hosts services domain password lenServices following
        (i + 1) x1 stdin1 with h2 | ⟨service2, hs2, h2⟩
      · exact Or.inr h2
      · rw [hs] at hs2
        simp only [Option.some.injEq] at hs2
        subst hs2
        exact Or.inl h2

/-- C17, at the first pass of the run in which `alice` is locked and the operator answers
`y`. -/
theorem lockout_continue_frame_witness :
    appended
        (iteration Colour.plain bothServices lockedThenFine ["dc01"] ["KERB", "LDAP"] "CORP" "pw" 1
          "alice" 0 0 ["y\n"]).1 = [] ∧
      ∃ service,
        attempts
          (iteration Colour.plain bothServices lockedThenFine ["dc01"] ["KERB", "LDAP"] "CORP" "pw"
            1 "alice" 0 0 ["y\n"]).1 = [(service, "alice")] ∧
        ∀ following,
          attempts
            (iteration Colour.plain bothServices lockedThenFine ["dc01"] ["KERB", "LDAP"] "CORP"
              "pw" 1 following (0 + 1) 0 []).1 = [(service, following)] ∨
          attempts
            (iteration Colour.plain bothServices lockedThenFine ["dc01"] ["KERB", "LDAP"] "CORP"
              "pw" 1 following (0 + 1) 0 []).1 = [] :=
  ⟨(lockout_continue_frame Colour.plain bothServices lockedThenFine ["dc01"] ["KERB", "LDAP"]
      "CORP" "pw" 1 "alice" ["bob"] 0 0 ["y\n"] 0 [] (by decide) (by decide)).2.1,
    (lockout_continue_frame Colour.plain bothServices lockedThenFine ["dc01"] ["KERB", "LDAP"]
      "CORP" "pw" 1 "alice" ["bob"] 0 0 ["y\n"] 0 [] (by decide) (by decide)).2.2.2⟩

end Talon
